import Mathlib

/-!
# Storefront session and cart synchronisation

A shallow embedding of the React storefront under `frontend/src`:
`App.js` (session store and cart synchroniser), `components/ProductCard.js`,
`pages/ProductDetailPage.js`, `pages/CartPage.js`, `pages/CheckoutPage.js`,
`pages/AuthPage.js` and `pages/ProductsPage.js`.

Conventions of the embedding.

* React state, `localStorage` and the axios default headers are fields of an
  explicit state record; a handler is a function from the state it runs in and
  the answers of the backend to an `Outcome`: the state it leaves, the ordered
  trace of the effects it performed, and how its promise settled.
* Every `await axios...` takes the backend's answer as an argument of type
  `HttpResult`; `try / catch / finally` is spelled out by case analysis.
* Request URLs are written relative to `BACKEND_URL`, so `API` is `"/api"`.
* A quantity is the integer and a price the rational written in a response
  body; `null` / `undefined` are `none`. Arithmetic on them is that of the
  runtime: every sum and product is rounded to the nearest binary64 value,
  `JsNumber` holding the result. The two zeros of binary64 are identified.
-/

namespace Storefront

/-! ## Shared vocabulary -/

/-- HTTP verbs used by the axios calls. -/
inductive Method where
  | GET
  | POST
  | PUT
  | DELETE
deriving DecidableEq, Repr

/-- User identity as returned by `/auth/me`, `/auth/login`, `/auth/register`. -/
structure User where
  id : String
  name : String
  email : String
deriving DecidableEq, Repr

/-- Catalog fields of a product that the handlers read. -/
structure Product where
  id : String
  name : String
  price : ℚ
  stock : Int
deriving DecidableEq

/-- One line of a cart; `product` is the denormalised catalog entry, which the
code reads with `item.product?.` on the cart page. -/
structure CartItem where
  product_id : String
  quantity : Int
  product : Option Product
deriving DecidableEq

/-- Body of a `GET /api/cart` response; `items = none` stands for a body whose
`items` is missing, on which `.reduce` / `.length` throw a `TypeError`. -/
structure CartData where
  items : Option (List CartItem)
deriving DecidableEq

/-- The shipping form of the checkout page. -/
structure ShippingForm where
  name : String
  address : String
  city : String
  state : String
  zipCode : String
  phone : String
deriving DecidableEq

/-- One entry of the `items` array posted to `/api/orders`. -/
structure OrderItem where
  product_id : String
  name : String
  price : ℚ
  quantity : Int
deriving DecidableEq

/-- Body of a successful `POST /api/orders` response. -/
structure OrderData where
  id : String
deriving DecidableEq

/-! ### Numbers of the runtime -/

/-- A Number value: a finite value, given by the rational it denotes, one of
the two infinities, or `NaN`. -/
inductive JsNumber where
  | finite (value : ℚ)
  | posInfinity
  | negInfinity
  | nan
deriving DecidableEq

/-- The literal `0`. -/
instance : Zero JsNumber := ⟨.finite 0⟩

/-- Nearest integer to a rational, a tie going to the even neighbour. -/
def roundHalfEven (q : ℚ) : Int :=
  if q - ⌊q⌋ < 1 / 2 then ⌊q⌋
  else if 1 / 2 < q - ⌊q⌋ then ⌊q⌋ + 1
  else if ⌊q⌋ % 2 = 0 then ⌊q⌋
  else ⌊q⌋ + 1

/-- Exponent of the last place of binary64 at `q`: 52 binary places below the
leading bit, and never below the subnormal spacing `2 ^ (-1074)`. -/
def ulpExponent (q : ℚ) : Int :=
  max (Int.log 2 |q| - 52) (-1074)

/-- The Number value for a real value: the nearest multiple of the last place,
ties to even, and an infinity once that reaches `2 ^ 1024`. This is how a
JSON number is read and how every arithmetic result is rounded. -/
def toDouble (q : ℚ) : JsNumber :=
  if (2 : ℚ) ^ 1024 ≤ |(roundHalfEven (q * 2 ^ (-ulpExponent q)) : ℚ) * 2 ^ ulpExponent q| then
    (if 0 < q then .posInfinity else .negInfinity)
  else .finite ((roundHalfEven (q * 2 ^ (-ulpExponent q)) : ℚ) * 2 ^ ulpExponent q)

/-- The operator `+` on Number values. -/
def JsNumber.add : JsNumber → JsNumber → JsNumber
  | .finite a, .finite b => toDouble (a + b)
  | .nan, _ => .nan
  | _, .nan => .nan
  | .posInfinity, .negInfinity => .nan
  | .negInfinity, .posInfinity => .nan
  | .posInfinity, _ => .posInfinity
  | _, .posInfinity => .posInfinity
  | .negInfinity, _ => .negInfinity
  | _, .negInfinity => .negInfinity

/-- The operator `*` on Number values. -/
def JsNumber.mul : JsNumber → JsNumber → JsNumber
  | .finite a, .finite b => toDouble (a * b)
  | .nan, _ => .nan
  | _, .nan => .nan
  | .finite a, .posInfinity =>
    if a = 0 then .nan else if 0 < a then .posInfinity else .negInfinity
  | .finite a, .negInfinity =>
    if a = 0 then .nan else if 0 < a then .negInfinity else .posInfinity
  | .posInfinity, .finite b =>
    if b = 0 then .nan else if 0 < b then .posInfinity else .negInfinity
  | .negInfinity, .finite b =>
    if b = 0 then .nan else if 0 < b then .negInfinity else .posInfinity
  | .posInfinity, .posInfinity => .posInfinity
  | .negInfinity, .negInfinity => .posInfinity
  | .posInfinity, .negInfinity => .negInfinity
  | .negInfinity, .posInfinity => .negInfinity

/-- The expression `x || 0` on a Number value: `0` and `NaN` are falsy. -/
def JsNumber.orZero : JsNumber → JsNumber
  | .finite value => if value = 0 then 0 else .finite value
  | .nan => 0
  | .posInfinity => .posInfinity
  | .negInfinity => .negInfinity

/-- The decimal digits `toFixed` takes for a non-negative value below
`10 ^ 21`: those of the integer nearest to the value times `10 ^ f`, the
larger one on a tie, padded with zeros on the left to `f + 1` digits. -/
def fixedDigits (x : ℚ) (fractionDigits : Nat) : String :=
  if (toString (⌊x * 10 ^ fractionDigits + 1 / 2⌋.toNat)).length ≤ fractionDigits then
    String.mk (List.replicate
        (fractionDigits + 1 - (toString (⌊x * 10 ^ fractionDigits + 1 / 2⌋.toNat)).length) '0')
      ++ toString (⌊x * 10 ^ fractionDigits + 1 / 2⌋.toNat)
  else toString (⌊x * 10 ^ fractionDigits + 1 / 2⌋.toNat)

/-- The decimal point put before the last `f` digits. -/
def pointBefore (digits : String) (fractionDigits : Nat) : String :=
  if fractionDigits = 0 then digits
  else digits.take (digits.length - fractionDigits) ++ "." ++
    digits.drop (digits.length - fractionDigits)

/-- `Number.prototype.toFixed`. From `10 ^ 21` on the result is the general
number-to-string conversion of the runtime, which is a parameter. -/
def JsNumber.toFixed (numberToString : ℚ → String) (x : JsNumber) (fractionDigits : Nat) :
    String :=
  match x with
  | .nan => "NaN"
  | .posInfinity => "Infinity"
  | .negInfinity => "-Infinity"
  | .finite value =>
    (if value < 0 then "-" else "") ++
      (if (10 : ℚ) ^ 21 ≤ |value| then numberToString |value|
       else pointBefore (fixedDigits |value| fractionDigits) fractionDigits)

/-- Request payloads. -/
inductive Body where
  | empty
  | cartAdd (product_id : String) (quantity : Int)
  | order (items : List OrderItem) (shipping_address : ShippingForm)
  | loginCredentials (email : String) (password : String)
  | registration (name : String) (email : String) (password : String)
deriving DecidableEq

/-- Observable actions of a handler, in program order. `fetchCartCount` and
`setCartCount` are calls of the functions handed down through `CartContext`,
`login` a call of the function handed down through `AuthContext`. -/
inductive Effect where
  | request (method : Method) (url : String) (body : Body)
  | navigate (path : String)
  | toastSuccess (message : String)
  | toastError (message : String)
  | consoleError (message : String)
  | fetchCartCount
  | login (token : String) (userData : User)
  | setCartCount (value : JsNumber)
deriving DecidableEq

/-- Answer of the backend to one axios call: the promise resolves with
`response.data`, or rejects (network error or non-2xx status) with an optional
`error.response.data.detail`. -/
inductive HttpResult (α : Type) where
  | ok (data : α)
  | error (detail : Option String)

/-- How the promise of an `async` handler settles. -/
inductive Completion where
  | fulfilled
  | rejected
deriving DecidableEq, Repr

/-- Result of running a handler to completion. -/
structure Outcome (σ : Type) where
  state : σ
  effects : List Effect
  completion : Completion

/-- Base path of the API, `${BACKEND_URL}/api` with `BACKEND_URL` left out. -/
def API : String := "/api"

/-- JavaScript truthiness of a string-or-null value. -/
def truthy : Option String → Bool
  | none => false
  | some s => s != ""

/-- The effect is an HTTP request with the given verb. -/
def Effect.isRequest (m : Method) : Effect → Bool
  | .request m' _ _ => m == m'
  | _ => false

/-- The effect is an HTTP request with the given verb and URL. -/
def Effect.isRequestTo (m : Method) (url : String) : Effect → Bool
  | .request m' url' _ => m == m' && url == url'
  | _ => false

/-- The effect is any HTTP request. -/
def Effect.isAnyRequest : Effect → Bool
  | .request _ _ _ => true
  | _ => false

/-- The effect is a toast of either kind. -/
def Effect.isToast : Effect → Bool
  | .toastSuccess _ => true
  | .toastError _ => true
  | _ => false

/-! ## `App.js`: session store and cart synchroniser -/

namespace App

/-- State owned by `App`: the three `useState` cells, the `token` entry of
`localStorage` and `axios.defaults.headers.common['Authorization']`. -/
structure AppState where
  user : Option User
  cartCount : JsNumber
  loading : Bool
  token : Option String
  authorization : Option String
deriving DecidableEq

/-- State at mount: `useState(null)`, `useState(0)`, `useState(true)`, the
token left in `localStorage` by an earlier visit, and no default header. -/
def initialState (persisted : Option String) : AppState :=
  { user := none, cartCount := 0, loading := true, token := persisted, authorization := none }

/-- `fetchUser`: `GET /auth/me`, then `setUser(response.data)`; on rejection
the token and the header are dropped; `finally` clears `loading`. -/
def fetchUser (st : AppState) (response : HttpResult User) : Outcome AppState :=
  match response with
  | .ok data =>
    { state := { st with user := some data, loading := false }
      effects := [.request .GET (API ++ "/auth/me") .empty]
      completion := .fulfilled }
  | .error _ =>
    { state := { st with token := none, authorization := none, loading := false }
      effects := [.request .GET (API ++ "/auth/me") .empty, .consoleError "Failed to fetch user:"]
      completion := .fulfilled }

/-- Synchronous part of the mount effect: read the token and, when it is
truthy, install the bearer header; otherwise clear `loading`. The flag tells
whether `fetchUser()` is called next. -/
def startupSync (st : AppState) : AppState × Bool :=
  match st.token with
  | some token =>
    if truthy (some token) then
      ({ st with authorization := some ("Bearer " ++ token) }, true)
    else ({ st with loading := false }, false)
  | none => ({ st with loading := false }, false)

/-- The mount effect run to completion; `me` answers the identity fetch if
one is made. -/
def startup (st : AppState) (me : HttpResult User) : Outcome AppState :=
  match startupSync st with
  | (st', true) => fetchUser st' me
  | (st', false) => { state := st', effects := [], completion := .fulfilled }

/-- `fetchCartCount`: `GET /cart`, then `setCartCount` of the reduced sum; a
rejection or a `TypeError` of `.reduce` is caught and logged. -/
def fetchCartCount (st : AppState) (response : HttpResult CartData) : Outcome AppState :=
  match response with
  | .ok data =>
    match data.items with
    | some items =>
      { state := { st with
          cartCount := items.foldl (fun sum item => sum.add (toDouble item.quantity)) 0 }
        effects := [.request .GET (API ++ "/cart") .empty]
        completion := .fulfilled }
    | none =>
      { state := st
        effects := [.request .GET (API ++ "/cart") .empty, .consoleError "Failed to fetch cart:"]
        completion := .fulfilled }
  | .error _ =>
    { state := st
      effects := [.request .GET (API ++ "/cart") .empty, .consoleError "Failed to fetch cart:"]
      completion := .fulfilled }

/-- `login(token, userData)`. -/
def login (st : AppState) (token : String) (userData : User) : AppState :=
  { st with token := some token, authorization := some ("Bearer " ++ token), user := some userData }

/-- `logout()`. -/
def logout (st : AppState) : AppState :=
  { st with token := none, authorization := none, user := none, cartCount := 0 }

end App

/-! ### Session operations after start-up -/

/-- Operations the `AuthContext` hands to the views once `loading` is false. -/
inductive SessionOp where
  | login (token : String) (userData : User)
  | logout

namespace App

/-- One session operation applied to the state. -/
def applyOp (st : AppState) : SessionOp → AppState
  | .login token userData => login st token userData
  | .logout => logout st

/-- A sequence of session operations, oldest first. -/
def runOps (st : AppState) (ops : List SessionOp) : AppState :=
  ops.foldl applyOp st

/-- A session from page load: the mount effect run on the initial state, then
the operations of the views. The context (and with it `login` / `logout`) is
only rendered once `loading` is false, so operations follow the resolution. -/
def runSession (persisted : Option String) (me : HttpResult User) (ops : List SessionOp) : AppState :=
  runOps (startup (initialState persisted) me).state ops

/-- Identity the specification expects after start-up: the fetched identity
when a resolution was attempted (truthy token) and succeeded, null otherwise. -/
def resolvedIdentity (persisted : Option String) (me : HttpResult User) : Option User :=
  if truthy persisted then
    match me with
    | .ok data => some data
    | .error _ => none
  else none

/-- Whether the most recent identity-affecting operation of a session was a
successful login or, with no operation after it, a successful resolution. -/
def identityEstablished (persisted : Option String) (me : HttpResult User) (ops : List SessionOp) :
    Bool :=
  match ops.getLast? with
  | some (.login _ _) => true
  | some .logout => false
  | none =>
    truthy persisted &&
      (match me with
        | .ok _ => true
        | .error _ => false)

/-- Identity the specification expects after a session: decided by the most
recent identity-affecting operation, the resolution when there is no later one. -/
def expectedIdentity (persisted : Option String) (me : HttpResult User) (ops : List SessionOp) :
    Option User :=
  match ops.getLast? with
  | some (.login _ userData) => some userData
  | some .logout => none
  | none => resolvedIdentity persisted me

end App

/-! ### The `[user]` effect, the routes and the context calls -/

/-- The eight `<Route>` entries of `App`. -/
inductive Route where
  | home
  | products
  | productDetail (id : String)
  | cart
  | checkout
  | profile
  | wishlist
  | auth
deriving DecidableEq

/-- What `App` can render: the loading placeholder, one of the page
components, or a `<Navigate to=... />`. -/
inductive Element where
  | loadingPlaceholder
  | homePage
  | productsPage
  | productDetailPage
  | cartPage
  | checkoutPage
  | profilePage
  | wishlistPage
  | authPage
  | navigate (path : String)
deriving DecidableEq

/-- The element is one of the four view controllers behind the identity test. -/
def Element.isGatedPage : Element → Bool
  | .cartPage => true
  | .checkoutPage => true
  | .profilePage => true
  | .wishlistPage => true
  | _ => false

namespace App

/-- Body of the effect with dependency list `[user]`: `if (user) fetchCartCount()`. -/
def userEffect (user : Option User) : List Effect :=
  match user with
  | some _ => [.fetchCartCount]
  | none => []

/-- Runs of the `[user]` effect caused by one session operation. `login` stores
a fresh object, so the dependency changes and the effect runs with it;
`logout` stores `null`, so the effect runs when the identity was non-null and
React bails out when it already was `null`. -/
def effectAfterOp (st : AppState) : SessionOp → List Effect
  | .login _ userData => userEffect (some userData)
  | .logout =>
    match st.user with
    | some _ => userEffect none
    | none => []

/-- Runs of the `[user]` effect from page load to the end of the resolution:
once at mount, where `user` is `null`, and once more if `setUser` stored the
fetched identity. -/
def effectAfterStartup (persisted : Option String) (me : HttpResult User) : List Effect :=
  userEffect (initialState persisted).user ++
    (match (startup (initialState persisted) me).state.user with
      | some data => userEffect (some data)
      | none => [])

/-- The `element` of each route, as written in the `<Routes>` block. -/
def routeElement (user : Option User) : Route → Element
  | .home => .homePage
  | .products => .productsPage
  | .productDetail _ => .productDetailPage
  | .cart => if user.isSome then .cartPage else .navigate "/auth"
  | .checkout => if user.isSome then .checkoutPage else .navigate "/auth"
  | .profile => if user.isSome then .profilePage else .navigate "/auth"
  | .wishlist => if user.isSome then .wishlistPage else .navigate "/auth"
  | .auth => if !user.isSome then .authPage else .navigate "/"

/-- The render of `App` at a location: the placeholder while `loading`, the
matched route otherwise. -/
def render (st : AppState) (route : Route) : Element :=
  if st.loading then .loadingPlaceholder else routeElement st.user route

/-- The context calls of a trace carried out on the state of `App`, every
`GET /cart` of a refresh being answered by `cart`: the state left and the
effects of the calls. A call of `setCartCount` writes the count directly.
Effects other than context calls do not reach `App`. -/
def handleContextCalls (st : AppState) (cart : HttpResult CartData) :
    List Effect → AppState × List Effect
  | [] => (st, [])
  | .fetchCartCount :: rest =>
    ((handleContextCalls (fetchCartCount st cart).state cart rest).1,
      (fetchCartCount st cart).effects ++
        (handleContextCalls (fetchCartCount st cart).state cart rest).2)
  | .login token userData :: rest => handleContextCalls (login st token userData) cart rest
  | .setCartCount value :: rest => handleContextCalls { st with cartCount := value } cart rest
  | .request _ _ _ :: rest => handleContextCalls st cart rest
  | .navigate _ :: rest => handleContextCalls st cart rest
  | .toastSuccess _ :: rest => handleContextCalls st cart rest
  | .toastError _ :: rest => handleContextCalls st cart rest
  | .consoleError _ :: rest => handleContextCalls st cart rest

end App

/-! ## `components/ProductCard.js` -/

namespace ProductCard

/-- The one `useState` cell of a product card. -/
structure State where
  isAddingToCart : Bool
deriving DecidableEq

/-- `handleAddToCart` up to its `await`: the guard on `user`, then
`setIsAddingToCart(true)`. The flag tells whether the `POST` is issued. -/
def handleAddToCartSync (user : Option User) (st : State) : State × List Effect × Bool :=
  match user with
  | none => (st, [.navigate "/auth"], false)
  | some _ => ({ st with isAddingToCart := true }, [], true)

/-- `handleAddToCart` (quick add) run to completion. -/
def handleAddToCart (user : Option User) (product : Product) (st : State)
    (response : HttpResult Unit) : Outcome State :=
  match handleAddToCartSync user st with
  | (st', effects, false) => { state := st', effects := effects, completion := .fulfilled }
  | (st', effects, true) =>
    match response with
    | .ok _ =>
      { state := { st' with isAddingToCart := false }
        effects := effects ++ [.request .POST (API ++ "/cart") (.cartAdd product.id 1),
          .toastSuccess "Added to cart!", .fetchCartCount]
        completion := .fulfilled }
    | .error _ =>
      { state := { st' with isAddingToCart := false }
        effects := effects ++ [.request .POST (API ++ "/cart") (.cartAdd product.id 1),
          .toastError "Failed to add to cart", .consoleError "error"]
        completion := .fulfilled }

/-- `handleAddToWishlist` of the card: the guard on `user`, then the `POST`. -/
def handleAddToWishlist (user : Option User) (product : Product) (st : State)
    (response : HttpResult Unit) : Outcome State :=
  match user with
  | none => { state := st, effects := [.navigate "/auth"], completion := .fulfilled }
  | some _ =>
    match response with
    | .ok _ =>
      { state := st
        effects := [.request .POST (API ++ "/wishlist/" ++ product.id) .empty,
          .toastSuccess "Added to wishlist!"]
        completion := .fulfilled }
    | .error _ =>
      { state := st
        effects := [.request .POST (API ++ "/wishlist/" ++ product.id) .empty,
          .toastError "Failed to add to wishlist", .consoleError "error"]
        completion := .fulfilled }

end ProductCard

/-! ## `pages/ProductDetailPage.js` -/

namespace ProductDetailPage

/-- The `useState` cells of the product detail page. -/
structure State where
  product : Option Product
  quantity : Int
  loading : Bool
  isAddingToCart : Bool
deriving DecidableEq

/-- `handleAddToCart` up to its `await`: the guard on `user`, then
`setIsAddingToCart(true)`. The flag tells whether the `try` block is entered. -/
def handleAddToCartSync (user : Option User) (st : State) : State × List Effect × Bool :=
  match user with
  | none => (st, [.navigate "/auth"], false)
  | some _ => ({ st with isAddingToCart := true }, [], true)

/-- `handleAddToCart` run to completion; reading `product.id` of a null
product throws inside `try` before the request is built. -/
def handleAddToCart (user : Option User) (st : State) (response : HttpResult Unit) :
    Outcome State :=
  match handleAddToCartSync user st with
  | (st', effects, false) => { state := st', effects := effects, completion := .fulfilled }
  | (st', effects, true) =>
    match st'.product with
    | none =>
      { state := { st' with isAddingToCart := false }
        effects := effects ++ [.toastError "Failed to add to cart", .consoleError "error"]
        completion := .fulfilled }
    | some product =>
      match response with
      | .ok _ =>
        { state := { st' with isAddingToCart := false }
          effects := effects ++ [.request .POST (API ++ "/cart") (.cartAdd product.id st'.quantity),
            .toastSuccess "Added to cart!", .fetchCartCount]
          completion := .fulfilled }
      | .error _ =>
        { state := { st' with isAddingToCart := false }
          effects := effects ++ [.request .POST (API ++ "/cart") (.cartAdd product.id st'.quantity),
            .toastError "Failed to add to cart", .consoleError "error"]
          completion := .fulfilled }

/-- `handleAddToWishlist` of the detail page; reading `product.id` of a null
product throws inside `try` before the request is built. -/
def handleAddToWishlist (user : Option User) (st : State) (response : HttpResult Unit) :
    Outcome State :=
  match user with
  | none => { state := st, effects := [.navigate "/auth"], completion := .fulfilled }
  | some _ =>
    match st.product with
    | none =>
      { state := st
        effects := [.toastError "Failed to add to wishlist", .consoleError "error"]
        completion := .fulfilled }
    | some product =>
      match response with
      | .ok _ =>
        { state := st
          effects := [.request .POST (API ++ "/wishlist/" ++ product.id) .empty,
            .toastSuccess "Added to wishlist!"]
          completion := .fulfilled }
      | .error _ =>
        { state := st
          effects := [.request .POST (API ++ "/wishlist/" ++ product.id) .empty,
            .toastError "Failed to add to wishlist", .consoleError "error"]
          completion := .fulfilled }

end ProductDetailPage

/-! ## `pages/CartPage.js` -/

/-- The expression `(item.product?.price || 0) * item.quantity`: a missing
product or a falsy price counts as 0, and the product is a Number product. -/
def lineAmount (item : CartItem) : JsNumber :=
  JsNumber.mul
    (match item.product with
      | some product => (toDouble product.price).orZero
      | none => 0)
    (toDouble item.quantity)

namespace CartPage

/-- The `useState` cells of the cart page. -/
structure State where
  cart : Option CartData
  loading : Bool
deriving DecidableEq

/-- `getTotal`: 0 without a cart or without items, else the reduction of the
line amounts from 0. -/
def getTotal (st : State) : JsNumber :=
  match st.cart with
  | none => 0
  | some cart =>
    match cart.items with
    | none => 0
    | some items => items.foldl (fun sum item => sum.add (lineAmount item)) 0

/-- Text of the `subtotal` span, `${getTotal().toFixed(2)}`. -/
def subtotalText (numberToString : ℚ → String) (st : State) : String :=
  "$" ++ (getTotal st).toFixed numberToString 2

/-- Text of the `total` span, `${getTotal().toFixed(2)}`; the shipping row
above it is the constant `Free`. -/
def totalText (numberToString : ℚ → String) (st : State) : String :=
  "$" ++ (getTotal st).toFixed numberToString 2

/-- `fetchCart` of the cart page: `setCart(response.data)`, or a log and a
toast on rejection; `finally` clears `loading`. -/
def fetchCart (st : State) (response : HttpResult CartData) : Outcome State :=
  match response with
  | .ok data =>
    { state := { st with cart := some data, loading := false }
      effects := [.request .GET (API ++ "/cart") .empty]
      completion := .fulfilled }
  | .error _ =>
    { state := { st with loading := false }
      effects := [.request .GET (API ++ "/cart") .empty, .consoleError "Failed to fetch cart:",
        .toastError "Failed to load cart"]
      completion := .fulfilled }

/-- `updateQuantity`: nothing below 1; else the `PUT`, then the awaited
`fetchCart()` (which catches its own failure) and the call of
`fetchCartCount()`; a rejected `PUT` is logged and toasted. -/
def updateQuantity (st : State) (productId : String) (newQuantity : Int)
    (put : HttpResult Unit) (cart : HttpResult CartData) : Outcome State :=
  if newQuantity < 1 then { state := st, effects := [], completion := .fulfilled }
  else
    match put with
    | .ok _ =>
      { state := (fetchCart st cart).state
        effects :=
          [.request .PUT (API ++ "/cart/" ++ productId ++ "?quantity=" ++ toString newQuantity)
            .empty] ++ (fetchCart st cart).effects ++ [.fetchCartCount]
        completion := .fulfilled }
    | .error _ =>
      { state := st
        effects :=
          [.request .PUT (API ++ "/cart/" ++ productId ++ "?quantity=" ++ toString newQuantity)
            .empty, .consoleError "Failed to update quantity:",
           .toastError "Failed to update quantity"]
        completion := .fulfilled }

/-- `removeItem`: the `DELETE`, then the awaited `fetchCart()`, the call of
`fetchCartCount()` and the success toast; a rejected `DELETE` is logged and
toasted. -/
def removeItem (st : State) (productId : String) (del : HttpResult Unit)
    (cart : HttpResult CartData) : Outcome State :=
  match del with
  | .ok _ =>
    { state := (fetchCart st cart).state
      effects := [.request .DELETE (API ++ "/cart/" ++ productId) .empty] ++
        (fetchCart st cart).effects ++ [.fetchCartCount, .toastSuccess "Item removed from cart"]
      completion := .fulfilled }
  | .error _ =>
    { state := st
      effects := [.request .DELETE (API ++ "/cart/" ++ productId) .empty,
        .consoleError "Failed to remove item:", .toastError "Failed to remove item"]
      completion := .fulfilled }

end CartPage

/-! ## `pages/CheckoutPage.js` -/

/-- Names of the six inputs of the shipping form. -/
inductive Field where
  | name
  | address
  | city
  | state
  | zipCode
  | phone
deriving DecidableEq, Repr

namespace CheckoutPage

/-- The `useState` cells of the checkout page. -/
structure State where
  cart : Option CartData
  loading : Bool
  isProcessing : Bool
  formData : ShippingForm
deriving DecidableEq

/-- State at mount. -/
def initialState : State :=
  { cart := none, loading := true, isProcessing := false
    formData := { name := "", address := "", city := "", state := "", zipCode := "", phone := "" } }

/-- `fetchCart`: an empty cart is announced and the view leaves for `/cart`
without `setCart`; a rejection, or a body without `items`, is caught. -/
def fetchCart (st : State) (response : HttpResult CartData) : Outcome State :=
  match response with
  | .ok data =>
    match data.items with
    | some items =>
      if items.length = 0 then
        { state := { st with loading := false }
          effects := [.request .GET (API ++ "/cart") .empty, .toastError "Your cart is empty",
            .navigate "/cart"]
          completion := .fulfilled }
      else
        { state := { st with cart := some data, loading := false }
          effects := [.request .GET (API ++ "/cart") .empty]
          completion := .fulfilled }
    | none =>
      { state := { st with loading := false }
        effects := [.request .GET (API ++ "/cart") .empty, .consoleError "Failed to fetch cart:",
          .toastError "Failed to load cart"]
        completion := .fulfilled }
  | .error _ =>
    { state := { st with loading := false }
      effects := [.request .GET (API ++ "/cart") .empty, .consoleError "Failed to fetch cart:",
        .toastError "Failed to load cart"]
      completion := .fulfilled }

/-- `handleInputChange`: overwrite the field named by the input. -/
def handleInputChange (st : State) (field : Field) (value : String) : State :=
  match field with
  | .name => { st with formData := { st.formData with name := value } }
  | .address => { st with formData := { st.formData with address := value } }
  | .city => { st with formData := { st.formData with city := value } }
  | .state => { st with formData := { st.formData with state := value } }
  | .zipCode => { st with formData := { st.formData with zipCode := value } }
  | .phone => { st with formData := { st.formData with phone := value } }

/-- The `cart.items.map(...)` of `handleSubmit`; `none` when some item has no
`product`, where `item.product.name` throws. -/
def orderItems : List CartItem → Option (List OrderItem)
  | [] => some []
  | item :: rest =>
    match item.product with
    | none => none
    | some product =>
      match orderItems rest with
      | none => none
      | some mapped =>
        some ({ product_id := item.product_id, name := product.name, price := product.price,
                quantity := item.quantity } :: mapped)

/-- The validation test of `handleSubmit`: some field is the empty string. -/
def someFieldEmpty (formData : ShippingForm) : Bool :=
  formData.name == "" || formData.address == "" || formData.city == "" ||
    formData.state == "" || formData.zipCode == "" || formData.phone == ""

/-- What the `catch` and `finally` of `handleSubmit` leave, after the effects
done so far. -/
def submitFailed (st : State) (done : List Effect) : Outcome State :=
  { state := { st with isProcessing := false }
    effects := done ++ [.consoleError "Failed to create order:",
      .toastError "Failed to place order. Please try again."]
    completion := .fulfilled }

/-- `handleSubmit`: validation, then inside `try` the order items are built
(a null cart, missing items or a missing product throw), the order is posted,
and on success the toast, the count refresh and the navigation follow. -/
def handleSubmit (st : State) (response : HttpResult OrderData) : Outcome State :=
  if someFieldEmpty st.formData then
    { state := st, effects := [.toastError "Please fill in all fields"], completion := .fulfilled }
  else
    match st.cart with
    | none => submitFailed st []
    | some cart =>
      match cart.items with
      | none => submitFailed st []
      | some items =>
        match orderItems items with
        | none => submitFailed st []
        | some mapped =>
          match response with
          | .ok _ =>
            { state := { st with isProcessing := false }
              effects := [.request .POST (API ++ "/orders") (.order mapped st.formData),
                .toastSuccess "Order placed successfully!", .fetchCartCount, .navigate "/profile"]
              completion := .fulfilled }
          | .error _ =>
            submitFailed st [.request .POST (API ++ "/orders") (.order mapped st.formData)]

/-- A checkout state with a two-line cart and a filled form. -/
def exampleState : State :=
  { cart := some { items := some [
      { product_id := "p1", quantity := 2
        product := some { id := "p1", name := "Blocks", price := 10, stock := 4 } },
      { product_id := "p2", quantity := 1
        product := some { id := "p2", name := "Kite", price := 11 / 2, stock := 9 } }] }
    loading := false
    isProcessing := false
    formData := { name := "Ada", address := "1 Main St", city := "Leeds", state := "WY",
                  zipCode := "LS1", phone := "555" } }

/-- User events on the mounted checkout view. -/
inductive Event where
  | input (field : Field) (value : String)
  | submit (response : HttpResult OrderData)

/-- One event handled: the state left and the effects performed. -/
def step (st : State) : Event → State × List Effect
  | .input field value => (handleInputChange st field value, [])
  | .submit response => ((handleSubmit st response).state, (handleSubmit st response).effects)

/-- A sequence of events handled in order, with the accumulated trace. -/
def run (st : State) : List Event → State × List Effect
  | [] => (st, [])
  | ev :: rest =>
    ((run (step st ev).1 rest).1, (step st ev).2 ++ (run (step st ev).1 rest).2)

/-- The life of a checkout view: the mount effect `fetchCart`, then events. -/
def session (cartResponse : HttpResult CartData) (events : List Event) : State × List Effect :=
  ((run (fetchCart initialState cartResponse).state events).1,
    (fetchCart initialState cartResponse).effects ++
      (run (fetchCart initialState cartResponse).state events).2)

/-- The cart cell is unset or holds a non-empty item list. -/
def cartUnsetOrNonEmpty (st : State) : Prop :=
  st.cart = none ∨ ∃ items, st.cart = some { items := some items } ∧ items ≠ []

/-- The effect is a `POST /api/orders` whose `items` array is empty. -/
def isEmptyOrder : Effect → Bool
  | .request .POST url (.order items _) => url == API ++ "/orders" && items.isEmpty
  | _ => false

/-- The effect is a `POST /api/orders`. -/
def isOrderPost (e : Effect) : Bool :=
  e.isRequestTo .POST (API ++ "/orders")

end CheckoutPage

/-! ## `pages/AuthPage.js` -/

/-- The form of the auth page. -/
structure AuthForm where
  name : String
  email : String
  password : String
deriving DecidableEq

/-- Body of a successful `/auth/login` or `/auth/register` response. -/
structure AuthData where
  access_token : String
  user : User
deriving DecidableEq

namespace AuthPage

/-- The `useState` cells of the auth page. -/
structure State where
  isLogin : Bool
  loading : Bool
  formData : AuthForm
deriving DecidableEq

/-- State at mount: `useState(true)`, `useState(false)` and an empty form. -/
def initialState : State :=
  { isLogin := true, loading := false, formData := { name := "", email := "", password := "" } }

/-- The toggle button: `setIsLogin(!isLogin)`. -/
def toggle (st : State) : State :=
  { st with isLogin := !st.isLogin }

/-- The expression `error.response?.data?.detail || 'Authentication failed'`. -/
def failureText (detail : Option String) : String :=
  match detail with
  | some text => if text = "" then "Authentication failed" else text
  | none => "Authentication failed"

/-- `handleSubmit`: `setLoading(true)`, the `POST` of the current mode, then
`login(...)`, the welcome toast and `navigate('/')`; a rejection is logged and
toasted; `finally` clears `loading`. -/
def handleSubmit (st : State) (response : HttpResult AuthData) : Outcome State :=
  if st.isLogin then
    match response with
    | .ok data =>
      { state := { st with loading := false }
        effects := [.request .POST (API ++ "/auth/login")
            (.loginCredentials st.formData.email st.formData.password),
          .login data.access_token data.user, .toastSuccess "Welcome back!", .navigate "/"]
        completion := .fulfilled }
    | .error detail =>
      { state := { st with loading := false }
        effects := [.request .POST (API ++ "/auth/login")
            (.loginCredentials st.formData.email st.formData.password),
          .consoleError "Auth error:", .toastError (failureText detail)]
        completion := .fulfilled }
  else
    match response with
    | .ok data =>
      { state := { st with loading := false }
        effects := [.request .POST (API ++ "/auth/register")
            (.registration st.formData.name st.formData.email st.formData.password),
          .login data.access_token data.user, .toastSuccess "Account created successfully!",
          .navigate "/"]
        completion := .fulfilled }
    | .error detail =>
      { state := { st with loading := false }
        effects := [.request .POST (API ++ "/auth/register")
            (.registration st.formData.name st.formData.email st.formData.password),
          .consoleError "Auth error:", .toastError (failureText detail)]
        completion := .fulfilled }

end AuthPage

/-- The effect is a call of the context `login`. -/
def Effect.isLogin : Effect → Bool
  | .login _ _ => true
  | _ => false

/-- The effect is a `navigate(...)`. -/
def Effect.isNavigate : Effect → Bool
  | .navigate _ => true
  | _ => false

/-- The effect is a call of the context `fetchCartCount`. -/
def Effect.isRefresh : Effect → Bool
  | .fetchCartCount => true
  | _ => false

/-- Some request with verb `m` of the trace is followed, later in the trace,
by a call of `fetchCartCount`. -/
def refreshFollows (m : Method) : List Effect → Bool
  | [] => false
  | e :: rest => (e.isRequest m && rest.any Effect.isRefresh) || refreshFollows m rest

/-- The effect is a call of the context `setCartCount`. -/
def Effect.isSetCartCount : Effect → Bool
  | .setCartCount _ => true
  | _ => false

/-- The effect is a success toast. -/
def Effect.isToastSuccess : Effect → Bool
  | .toastSuccess _ => true
  | _ => false

/-! ## `App.js`: responses that arrive between session operations -/

/-- The state of `App` together with the number of `GET /cart` requests of
`fetchCartCount` that are still awaiting their answer. -/
structure Running where
  app : App.AppState
  pending : Nat
deriving DecidableEq

/-- What can happen to a resolved `App`: a view calls `login` or `logout`, a
view handler calls `fetchCartCount()`, or the answer to a pending
`GET /cart` arrives. -/
inductive AppEvent where
  | login (token : String) (userData : User)
  | logout
  | viewRefresh
  | refreshSettled (response : HttpResult CartData)

namespace App

/-- The resolved `App` after page load, with the refreshes the `[user]` effect
has issued by then. -/
def afterStartup (persisted : Option String) (me : HttpResult User) : Running :=
  { app := (startup (initialState persisted) me).state
    pending := (effectAfterStartup persisted me).countP Effect.isRefresh }

/-- One event. `login` and `logout` act at once and the `[user]` effect issues
its refresh; a call of `fetchCartCount()` only sends the request; the code
after the `await` runs on the state of the moment the answer arrives. An
answer with no request in flight does not exist and changes nothing. -/
def stepEvent (r : Running) : AppEvent → Running
  | .login token userData =>
    { app := login r.app token userData
      pending := r.pending +
        (effectAfterOp r.app (.login token userData)).countP Effect.isRefresh }
  | .logout =>
    { app := logout r.app
      pending := r.pending + (effectAfterOp r.app .logout).countP Effect.isRefresh }
  | .viewRefresh => { r with pending := r.pending + 1 }
  | .refreshSettled response =>
    if r.pending = 0 then r
    else { app := (fetchCartCount r.app response).state, pending := r.pending - 1 }

/-- A sequence of events, oldest first. -/
def runEvents (r : Running) (events : List AppEvent) : Running :=
  events.foldl stepEvent r

end App

/-! ## `pages/ProductsPage.js` -/

/-- A category as listed by `/api/categories`. -/
structure Category where
  id : String
  name : String
deriving DecidableEq

namespace ProductsPage

/-- The `useState` cells of the product listing and the `category` search
parameter of the URL. -/
structure State where
  products : List Product
  categories : List Category
  loading : Bool
  selectedCategory : String
  searchCategory : Option String
deriving DecidableEq

/-- The URL `fetchProducts` builds from the selected category of the render it
was created in. -/
def productsUrl (selectedCategory : String) : String :=
  if selectedCategory ≠ "" then API ++ "/products" ++ "?category=" ++ selectedCategory
  else API ++ "/products"

/-- `fetchProducts` up to its `await`: `setLoading(true)` and the `GET`. -/
def fetchProductsSync (st : State) : State × Effect :=
  ({ st with loading := true }, .request .GET (productsUrl st.selectedCategory) .empty)

/-- `fetchProducts` after its `await`, on the state of the moment the answer
arrives: `setProducts(response.data)`, or a log; `finally` clears `loading`. -/
def fetchProductsSettled (st : State) (response : HttpResult (List Product)) :
    State × List Effect :=
  match response with
  | .ok data => ({ st with products := data, loading := false }, [])
  | .error _ => ({ st with loading := false }, [.consoleError "Failed to fetch products:"])

/-- `handleCategoryChange`: `setSelectedCategory`, then the search parameter. -/
def handleCategoryChange (st : State) (category : String) : State :=
  if category ≠ "" then { st with selectedCategory := category, searchCategory := some category }
  else { st with selectedCategory := category, searchCategory := none }

/-- The listing together with the URLs of its product-list requests that are
still awaiting their answer, oldest first. -/
structure Running where
  view : State
  inFlight : List String
deriving DecidableEq

/-- A click on a category button, or the arrival of the answer to the
in-flight request at an index. -/
inductive Event where
  | categoryClicked (category : String)
  | settled (index : Nat) (response : HttpResult (List Product))

/-- One event. A click runs `handleCategoryChange`; when the selected category
changed, the `[selectedCategory]` effect calls `fetchProducts`, which sends a
new request and cancels none. An answer runs the rest of `fetchProducts`. -/
def step (r : Running) : Event → Running
  | .categoryClicked category =>
    if category = r.view.selectedCategory then
      { r with view := handleCategoryChange r.view category }
    else
      { view := (fetchProductsSync (handleCategoryChange r.view category)).1
        inFlight := r.inFlight ++ [productsUrl category] }
  | .settled index response =>
    if index < r.inFlight.length then
      { view := (fetchProductsSettled r.view response).1
        inFlight := r.inFlight.eraseIdx index }
    else r

/-- A sequence of events, oldest first. -/
def run (r : Running) (events : List Event) : Running :=
  events.foldl step r

end ProductsPage

/-! ## Buttons of the cart page and of the product detail page -/

namespace CartPage

/-- The decrease button of a line: `updateQuantity(item.product_id, item.quantity - 1)`. -/
def decreaseClicked (st : State) (item : CartItem) (put : HttpResult Unit)
    (cart : HttpResult CartData) : Outcome State :=
  updateQuantity st item.product_id (item.quantity - 1) put cart

/-- The increase button of a line: `updateQuantity(item.product_id, item.quantity + 1)`. -/
def increaseClicked (st : State) (item : CartItem) (put : HttpResult Unit)
    (cart : HttpResult CartData) : Outcome State :=
  updateQuantity st item.product_id (item.quantity + 1) put cart

end CartPage

/-- The two buttons of the quantity selector of the product detail page. -/
inductive Press where
  | decrease
  | increase
deriving DecidableEq, Repr

namespace ProductDetailPage

/-- State at mount: `useState(null)`, `useState(1)`, `useState(true)`,
`useState(false)`. -/
def initialState : State :=
  { product := none, quantity := 1, loading := true, isAddingToCart := false }

/-- `fetchProduct`: `setProduct(response.data)`, or a log, a toast and
`navigate('/products')`; `finally` clears `loading`. -/
def fetchProduct (st : State) (id : String) (response : HttpResult Product) : Outcome State :=
  match response with
  | .ok data =>
    { state := { st with product := some data, loading := false }
      effects := [.request .GET (API ++ "/products/" ++ id) .empty]
      completion := .fulfilled }
  | .error _ =>
    { state := { st with loading := false }
      effects := [.request .GET (API ++ "/products/" ++ id) .empty,
        .consoleError "Failed to fetch product:", .toastError "Product not found",
        .navigate "/products"]
      completion := .fulfilled }

/-- The decrease button: `setQuantity(Math.max(1, quantity - 1))`. -/
def pressDecrease (st : State) : State :=
  { st with quantity := max 1 (st.quantity - 1) }

/-- The increase button: `setQuantity(Math.min(product.stock, quantity + 1))`.
The selector is only rendered with a product. -/
def pressIncrease (st : State) : State :=
  match st.product with
  | some product => { st with quantity := min product.stock (st.quantity + 1) }
  | none => st

/-- One press of a button of the selector. -/
def press (st : State) : Press → State
  | .decrease => pressDecrease st
  | .increase => pressIncrease st

/-- A sequence of presses, oldest first. -/
def pressAll (st : State) (presses : List Press) : State :=
  presses.foldl press st

end ProductDetailPage

/-! ## Theorems -/

/-- An integer rounds to itself. -/
theorem roundHalfEven_intCast (n : Int) : roundHalfEven (n : ℚ) = n := by
  simp [roundHalfEven]

/-- A multiple of `2 ^ j` is a multiple of every finer last place `2 ^ e`:
scaling, rounding and scaling back returns it. -/
theorem roundHalfEven_scaled (n j e : Int) (hle : e ≤ j) :
    ((roundHalfEven ((n : ℚ) * 2 ^ j * 2 ^ (-e)) : Int) : ℚ) * 2 ^ e = (n : ℚ) * 2 ^ j := by
  obtain ⟨k, hk⟩ := Int.le.dest hle
  have h2 : (2 : ℚ) ≠ 0 := two_ne_zero
  have hscaled : (n : ℚ) * 2 ^ j * 2 ^ (-e) = ((n * 2 ^ k : Int) : ℚ) := by
    rw [← hk, zpow_add₀ h2, zpow_neg, zpow_natCast]
    push_cast
    field_simp
    ring
  rw [hscaled, roundHalfEven_intCast, ← hk, zpow_add₀ h2, zpow_natCast]
  push_cast
  ring

/-- The bound `2 ^ 53` carried from the integers to the rationals. -/
theorem abs_cast_lt (n : Int) (hn : |n| < 2 ^ 53) : |(n : ℚ)| < 2 ^ 53 := by
  exact_mod_cast hn

/-- The last place at a value with a 53-bit numerator over `2 ^ (-j)` is at
most `2 ^ j`. -/
theorem ulpExponent_le (n j : Int) (h0 : n ≠ 0) (hn : |n| < 2 ^ 53) (hj : -1074 ≤ j) :
    ulpExponent ((n : ℚ) * 2 ^ j) ≤ j := by
  unfold ulpExponent
  apply max_le _ hj
  have h2pos : (0 : ℚ) < 2 ^ j := zpow_pos (by norm_num) j
  have hpos : (0 : ℚ) < |(n : ℚ) * 2 ^ j| :=
    abs_pos.mpr (mul_ne_zero (Int.cast_ne_zero.mpr h0) (ne_of_gt h2pos))
  have hlt : |(n : ℚ) * 2 ^ j| < ((2 : ℕ) : ℚ) ^ (53 + j) := by
    rw [abs_mul, abs_of_pos h2pos]
    push_cast
    rw [zpow_add₀ (two_ne_zero)]
    have h53 : |(n : ℚ)| < 2 ^ (53 : ℤ) := by
      have := abs_cast_lt n hn
      norm_num at this ⊢
      exact this
    exact mul_lt_mul_of_pos_right h53 h2pos
  have := (Int.lt_zpow_iff_log_lt (by norm_num : 1 < 2) hpos).mp hlt
  omega

/-- Zero is a Number value. -/
theorem toDouble_zero : toDouble 0 = .finite 0 := by
  simp [toDouble, roundHalfEven]

/-- A value `n * 2 ^ j` with `|n| < 2 ^ 53`, `j` no finer than the subnormal
spacing and magnitude below `2 ^ 1024` is a Number value: rounding returns it. -/
theorem toDouble_dyadic (n j : Int) (hn : |n| < 2 ^ 53) (hj : -1074 ≤ j)
    (hfin : |(n : ℚ) * 2 ^ j| < 2 ^ 1024) :
    toDouble ((n : ℚ) * 2 ^ j) = .finite ((n : ℚ) * 2 ^ j) := by
  by_cases h0 : n = 0
  · subst h0
    simpa using toDouble_zero
  · unfold toDouble
    rw [roundHalfEven_scaled n j _ (ulpExponent_le n j h0 hn hj)]
    rw [if_neg (not_le.mpr hfin)]

/-- An integer of magnitude below `2 ^ 53` is a Number value. -/
theorem toDouble_safeInt (n : Int) (hn : |n| < 2 ^ 53) : toDouble (n : ℚ) = .finite n := by
  have hfin : |(n : ℚ) * 2 ^ (0 : ℤ)| < 2 ^ 1024 := by
    simp only [zpow_zero, mul_one]
    exact lt_trans (abs_cast_lt n hn) (by norm_num)
  simpa using toDouble_dyadic n 0 hn (by norm_num) hfin

/-- Rounding returns the integer that is less than a half away. -/
theorem roundHalfEven_of_near (q : ℚ) (m : Int) (hlo : (m : ℚ) - 1 / 2 < q)
    (hhi : q < (m : ℚ) + 1 / 2) : roundHalfEven q = m := by
  unfold roundHalfEven
  by_cases hq : (m : ℚ) ≤ q
  · have hfloor : ⌊q⌋ = m := Int.floor_eq_iff.mpr ⟨hq, by linarith⟩
    rw [hfloor, if_pos (by linarith)]
  · have hq' : q < m := not_le.mp hq
    have hfloor : ⌊q⌋ = m - 1 := Int.floor_eq_iff.mpr ⟨by push_cast; linarith, by push_cast; linarith⟩
    rw [hfloor]
    have h1 : ¬ (q - ((m - 1 : Int) : ℚ) < 1 / 2) := by push_cast; linarith
    have h2 : 1 / 2 < q - ((m - 1 : Int) : ℚ) := by push_cast; linarith
    rw [if_neg h1, if_pos h2]
    ring

/-- Rounding at a tie returns the even neighbour. -/
theorem roundHalfEven_of_tie (q : ℚ) (f : Int) (h : q = (f : ℚ) + 1 / 2) :
    roundHalfEven q = if f % 2 = 0 then f else f + 1 := by
  unfold roundHalfEven
  have hfloor : ⌊q⌋ = f := Int.floor_eq_iff.mpr ⟨by linarith, by linarith⟩
  rw [hfloor]
  have h1 : ¬ (q - (f : ℚ) < 1 / 2) := by linarith
  have h2 : ¬ (1 / 2 < q - (f : ℚ)) := by linarith
  rw [if_neg h1, if_neg h2]

/-- Rounding of a value whose binade `2 ^ k ≤ |q| < 2 ^ (k + 1)` and whose
rounded significand are known. -/
theorem toDouble_eval (q : ℚ) (k m : Int) (hlo : (2 : ℚ) ^ k ≤ |q|) (hhi : |q| < 2 ^ (k + 1))
    (hk : -1022 ≤ k) (hm : roundHalfEven (q * 2 ^ (-(k - 52))) = m)
    (hfin : |(m : ℚ) * 2 ^ (k - 52)| < 2 ^ 1024) :
    toDouble q = .finite ((m : ℚ) * 2 ^ (k - 52)) := by
  have hpos : (0 : ℚ) < |q| := lt_of_lt_of_le (zpow_pos (by norm_num) k) hlo
  have hlog : Int.log 2 |q| = k := by
    apply le_antisymm
    · have := (Int.lt_zpow_iff_log_lt (by norm_num : 1 < 2) hpos).mp (by exact_mod_cast hhi)
      omega
    · exact (Int.zpow_le_iff_le_log (by norm_num : 1 < 2) hpos).mp (by exact_mod_cast hlo)
  have hulp : ulpExponent q = k - 52 := by
    unfold ulpExponent
    rw [hlog]
    exact max_eq_left (by omega)
  unfold toDouble
  rw [hulp, hm, if_neg (not_le.mpr hfin)]

/-- The integer `2 ^ 53 + 1` lies halfway between two Number values and rounds
to the even one, `2 ^ 53`. -/
theorem toDouble_above_safe :
    toDouble 9007199254740993 = .finite 9007199254740992 := by
  have h := toDouble_eval 9007199254740993 53 4503599627370496 (by norm_num [abs_of_pos])
    (by norm_num [abs_of_pos]) (by norm_num)
    (by
      rw [roundHalfEven_of_tie _ 4503599627370496 (by norm_num)]
      norm_num)
    (by norm_num [abs_of_pos])
  rw [h]
  norm_num

/-- The Number value read from the JSON number `0.1`. -/
theorem toDouble_tenth :
    toDouble (1 / 10) = .finite (3602879701896397 / 36028797018963968) := by
  have h := toDouble_eval (1 / 10) (-4) 7205759403792794 (by norm_num [abs_of_pos])
    (by norm_num [abs_of_pos]) (by norm_num)
    (roundHalfEven_of_near _ _ (by norm_num) (by norm_num))
    (by norm_num [abs_of_pos])
  rw [h]
  norm_num

/-- Three times the Number value of `0.1`, rounded: the Number printed as
`0.30000000000000004`. -/
theorem toDouble_three_tenths :
    toDouble (3602879701896397 / 36028797018963968 * 3)
      = .finite (1351079888211149 / 4503599627370496) := by
  have h := toDouble_eval (3602879701896397 / 36028797018963968 * 3) (-2) 5404319552844596
    (by norm_num [abs_of_pos]) (by norm_num [abs_of_pos]) (by norm_num)
    (by
      rw [roundHalfEven_of_tie _ 5404319552844595 (by norm_num)]
      norm_num)
    (by norm_num [abs_of_pos])
  rw [h]
  norm_num

/-- The literal `0` is the finite Number zero. -/
theorem JsNumber.zero_eq : (0 : JsNumber) = .finite 0 := rfl

/-- A finite value `x || 0` is the value itself. -/
theorem JsNumber.orZero_finite (value : ℚ) : (JsNumber.finite value).orZero = .finite value := by
  by_cases h : value = 0
  · simp [JsNumber.orZero, h, JsNumber.zero_eq]
  · simp [JsNumber.orZero, h]

/-- Left fold of `sum + item.quantity` from an integer accumulator: exact when
the magnitudes of the accumulator and of the quantities add up to less than
`2 ^ 53`. -/
theorem foldl_quantity_safe (items : List CartItem) (acc : Int)
    (h : |acc| + (items.map (fun item => |item.quantity|)).sum < 2 ^ 53) :
    items.foldl (fun (sum : JsNumber) (item : CartItem) => sum.add (toDouble item.quantity))
        (JsNumber.finite acc)
      = JsNumber.finite ((acc + (items.map (fun item => item.quantity)).sum : Int) : ℚ) := by
  induction items generalizing acc with
  | nil => simp
  | cons item rest ih =>
    simp only [List.map_cons, List.sum_cons, List.foldl_cons] at h ⊢
    have hrest : 0 ≤ (rest.map (fun item => |item.quantity|)).sum := by
      apply List.sum_nonneg
      intro x hx
      obtain ⟨i, _, rfl⟩ := List.mem_map.mp hx
      exact abs_nonneg _
    have hacc := abs_nonneg acc
    have hitem := abs_nonneg item.quantity
    have htri := abs_add acc item.quantity
    have hq : |item.quantity| < 2 ^ 53 := by linarith
    have hsum : |acc + item.quantity| < 2 ^ 53 := by linarith
    have hadd : (JsNumber.finite (acc : ℚ)).add (toDouble item.quantity)
        = .finite ((acc + item.quantity : Int) : ℚ) := by
      rw [toDouble_safeInt _ hq]
      show toDouble ((acc : ℚ) + item.quantity) = _
      rw [← Int.cast_add]
      exact toDouble_safeInt _ hsum
    rw [hadd, ih (acc + item.quantity) (by linarith)]
    congr 2
    ring

/-- The count a successful refresh stores is the reduction of the fetched
items, whatever the state before. -/
theorem App.fetchCartCount_count (st : App.AppState) (items : List CartItem) :
    (App.fetchCartCount st (.ok { items := some items })).state.cartCount
      = items.foldl (fun (sum : JsNumber) (item : CartItem) => sum.add (toDouble item.quantity))
          (JsNumber.finite 0) := rfl

/-- The integer `2 ^ 53` is a Number value. -/
theorem toDouble_two_pow_53 : toDouble 9007199254740992 = .finite 9007199254740992 := by
  have h := toDouble_dyadic 1 53 (by norm_num) (by norm_num) (by norm_num [abs_of_pos])
  norm_num at h
  exact h

/-- The integer 1 is a Number value. -/
theorem toDouble_one : toDouble 1 = .finite 1 := by
  have h53 : |(1 : Int)| < 2 ^ 53 := by
    rw [abs_one]
    norm_num
  have h := toDouble_safeInt 1 h53
  rw [Int.cast_one] at h
  exact h

/-- C1, as stated, fails: for the snapshot with quantities 9007199254740992
and 1 a successful `fetchCartCount` leaves `cartCount` at 9007199254740992,
which is not the sum of the quantities. -/
theorem App.fetchCartCount_rounds_large_sum :
    (App.fetchCartCount (App.initialState none)
        (.ok { items := some [⟨"p1", 9007199254740992, none⟩, ⟨"p2", 1, none⟩] })).state.cartCount
      = .finite 9007199254740992 ∧
    (App.fetchCartCount (App.initialState none)
        (.ok { items := some [⟨"p1", 9007199254740992, none⟩, ⟨"p2", 1, none⟩] })).state.cartCount
      ≠ .finite ((((([⟨"p1", 9007199254740992, none⟩, ⟨"p2", 1, none⟩] : List CartItem).map
          (fun item => item.quantity)).sum : Int)) : ℚ) := by
  have hcount : (App.fetchCartCount (App.initialState none)
      (.ok { items := some [⟨"p1", 9007199254740992, none⟩, ⟨"p2", 1, none⟩] })).state.cartCount
      = .finite 9007199254740992 := by
    rw [App.fetchCartCount_count, List.foldl_cons, List.foldl_cons, List.foldl_nil]
    have e1 : ((9007199254740992 : Int) : ℚ) = 9007199254740992 := by norm_cast
    have e2 : ((1 : Int) : ℚ) = 1 := by norm_cast
    have a1 : (JsNumber.finite 0).add (JsNumber.finite 9007199254740992)
        = JsNumber.finite 9007199254740992 := by
      show toDouble (0 + 9007199254740992) = _
      rw [zero_add, toDouble_two_pow_53]
    have a2 : (JsNumber.finite 9007199254740992).add (JsNumber.finite 1)
        = JsNumber.finite 9007199254740992 := by
      show toDouble (9007199254740992 + 1) = _
      rw [show ((9007199254740992 : ℚ) + 1) = 9007199254740993 by norm_num,
        toDouble_above_safe]
    show ((JsNumber.finite 0).add (toDouble ((9007199254740992 : Int) : ℚ))).add
        (toDouble ((1 : Int) : ℚ)) = _
    rw [e1, e2, toDouble_two_pow_53, toDouble_one, a1, a2]
  refine ⟨hcount, ?_⟩
  rw [hcount]
  norm_num

/-- C1, amended: after a successful `GET /api/cart` returning a snapshot whose
quantities have magnitudes adding up to less than `2 ^ 53`, `fetchCartCount`
leaves `cartCount` equal to the sum of the items' quantities, whatever the
state before; the count is 0 for no items and 3 for quantities 2 and 1. -/
theorem App.fetchCartCount_sets_sum (st : App.AppState) (items : List CartItem)
    (hsafe : (items.map (fun item => |item.quantity|)).sum < 2 ^ 53) :
    (App.fetchCartCount st (.ok { items := some items })).state.cartCount
      = .finite (((items.map (fun item => item.quantity)).sum : Int) : ℚ) ∧
    (App.fetchCartCount st (.ok { items := some [] })).state.cartCount = 0 ∧
    (∀ (a b : String) (p q : Option Product),
      (App.fetchCartCount st (.ok { items := some [⟨a, 2, p⟩, ⟨b, 1, q⟩] })).state.cartCount
        = .finite 3) := by
  have hzero : JsNumber.finite 0 = JsNumber.finite ((0 : Int) : ℚ) := by
    rw [Int.cast_zero]
  refine ⟨?_, rfl, ?_⟩
  · have h := foldl_quantity_safe items 0 (by rw [abs_zero, zero_add]; exact hsafe)
    rw [App.fetchCartCount_count, hzero, h, zero_add]
  · intro a b p q
    have hlist : |(0 : Int)| + (([⟨a, 2, p⟩, ⟨b, 1, q⟩] : List CartItem).map
        (fun item => |item.quantity|)).sum < 2 ^ 53 := by
      norm_num [List.map_cons, List.sum_cons]
    have h := foldl_quantity_safe [⟨a, 2, p⟩, ⟨b, 1, q⟩] 0 hlist
    rw [App.fetchCartCount_count, hzero, h]
    norm_num

/-- Witness of C1, amended, at quantities 2 and 1. -/
theorem App.fetchCartCount_sets_sum_witness :
    (App.fetchCartCount (App.initialState none)
        (.ok { items := some [⟨"p1", 2, none⟩, ⟨"p2", 1, none⟩] })).state.cartCount
      = .finite ((((([⟨"p1", 2, none⟩, ⟨"p2", 1, none⟩] : List CartItem).map
          (fun item => item.quantity)).sum : Int)) : ℚ) :=
  (App.fetchCartCount_sets_sum (App.initialState none) [⟨"p1", 2, none⟩, ⟨"p2", 1, none⟩]
    (by norm_num [List.map_cons, List.sum_cons])).1

/-- C2: whatever the session state before, `cartCount` is 0 right after
`logout()`. -/
theorem App.logout_cartCount_zero (st : App.AppState) :
    (App.logout st).cartCount = 0 := by
  simp [App.logout]

/-- Running operations followed by one more is applying the last to the rest. -/
theorem App.runOps_concat (st : App.AppState) (ops : List SessionOp) (op : SessionOp) :
    App.runOps st (ops ++ [op]) = App.applyOp (App.runOps st ops) op := by
  simp [App.runOps, List.foldl_append]

/-- The state left by the mount effect carries the identity the resolution
produced. -/
theorem App.startup_user (persisted : Option String) (me : HttpResult User) :
    (App.startup (App.initialState persisted) me).state.user
      = App.resolvedIdentity persisted me := by
  cases persisted with
  | none => simp [App.startup, App.startupSync, App.initialState, App.resolvedIdentity, truthy]
  | some t =>
    by_cases ht : t = ""
    · simp [App.startup, App.startupSync, App.initialState, App.resolvedIdentity, truthy, ht]
    · cases me <;>
        simp [App.startup, App.startupSync, App.initialState, App.resolvedIdentity, truthy, ht,
          App.fetchUser]

/-- C3: in every session (page load with any persisted token and any answer to
the identity fetch, then any finite sequence of `login` / `logout`) Identity is
null at mount and while the resolution is pending, and afterwards it is the
identity of the most recent successful login or resolution when that is the
most recent identity-affecting operation, and null after a logout, a failed
resolution or no resolution; so it is non-null exactly in the former case. -/
theorem App.identity_follows_last_operation (persisted : Option String) (me : HttpResult User)
    (ops : List SessionOp) :
    (App.initialState persisted).user = none ∧
    (App.startupSync (App.initialState persisted)).1.user = none ∧
    (App.runSession persisted me ops).user = App.expectedIdentity persisted me ops ∧
    ((App.runSession persisted me ops).user.isSome = App.identityEstablished persisted me ops) := by
  have hsync : (App.startupSync (App.initialState persisted)).1.user = none := by
    cases persisted with
    | none => simp [App.startupSync, App.initialState]
    | some t => by_cases ht : t = "" <;> simp [App.startupSync, App.initialState, truthy, ht]
  have hrun : (App.runSession persisted me ops).user = App.expectedIdentity persisted me ops := by
    rcases List.eq_nil_or_concat ops with h | ⟨front, op, h⟩
    · subst h
      simp [App.runSession, App.runOps, App.expectedIdentity, App.startup_user]
    · subst h
      cases op with
      | login token userData =>
        simp [App.runSession, App.runOps_concat, App.applyOp, App.login, App.expectedIdentity]
      | logout =>
        simp [App.runSession, App.runOps_concat, App.applyOp, App.logout, App.expectedIdentity]
  refine ⟨rfl, hsync, hrun, ?_⟩
  rw [hrun]
  rcases List.eq_nil_or_concat ops with h | ⟨front, op, h⟩
  · subst h
    cases me <;> by_cases hp : truthy persisted = true <;>
      simp [App.expectedIdentity, App.identityEstablished, App.resolvedIdentity, hp]
  · subst h
    cases op <;> simp [App.expectedIdentity, App.identityEstablished]

/-- C4: with no token in `localStorage` at mount, the start-up effect does not
call `fetchUser`, performs no effect at all (so no `GET /api/auth/me`), leaves
the Authorization default header absent and Identity null, and clears
`loading`. -/
theorem App.startup_without_token (me : HttpResult User) :
    (App.startupSync (App.initialState none)).2 = false ∧
    (App.startup (App.initialState none) me).effects = [] ∧
    (App.startup (App.initialState none) me).state.authorization = none ∧
    (App.startup (App.initialState none) me).state.user = none ∧
    (App.startup (App.initialState none) me).state.token = none ∧
    (App.startup (App.initialState none) me).state.loading = false := by
  simp [App.startup, App.startupSync, App.initialState]

/-- C5: with a non-empty token `t` in `localStorage` at mount and a rejected
identity fetch (any error detail), the request was made, and the state left
has no persisted token, no Authorization default header, Identity null and
`loading` false; the promise of `fetchUser` is fulfilled, not rejected, and
the only effect besides the request is a console log (no toast, no
navigation). -/
theorem App.startup_failed_fetch (t : String) (ht : t ≠ "") (detail : Option String) :
    (App.startup (App.initialState (some t)) (.error detail)).state.token = none ∧
    (App.startup (App.initialState (some t)) (.error detail)).state.authorization = none ∧
    (App.startup (App.initialState (some t)) (.error detail)).state.user = none ∧
    (App.startup (App.initialState (some t)) (.error detail)).state.loading = false ∧
    (App.startup (App.initialState (some t)) (.error detail)).completion = .fulfilled ∧
    (App.startup (App.initialState (some t)) (.error detail)).effects
      = [.request .GET "/api/auth/me" .empty, .consoleError "Failed to fetch user:"] := by
  simp [App.startup, App.startupSync, App.initialState, truthy, ht, App.fetchUser, API]

/-- Witness of C5 at the token `"abc"`. -/
theorem App.startup_failed_fetch_witness :
    ("abc" : String) ≠ "" ∧
    (App.startup (App.initialState (some "abc")) (.error none)).state.token = none ∧
    (App.startup (App.initialState (some "abc")) (.error none)).state.authorization = none ∧
    (App.startup (App.initialState (some "abc")) (.error none)).state.user = none ∧
    (App.startup (App.initialState (some "abc")) (.error none)).state.loading = false ∧
    (App.startup (App.initialState (some "abc")) (.error none)).completion = .fulfilled ∧
    (App.startup (App.initialState (some "abc")) (.error none)).effects
      = [.request .GET "/api/auth/me" .empty, .consoleError "Failed to fetch user:"] :=
  ⟨by decide, App.startup_failed_fetch "abc" (by decide) none⟩

/-- C6: for every product and every component state, the add-to-cart handlers
of `ProductCard` and `ProductDetailPage` run with Identity null perform the
single effect `navigate('/auth')` (so no `POST /api/cart`), never reach
`setIsAddingToCart(true)`, and leave the component state as it was. -/
theorem handleAddToCart_anonymous (product : Product) (response : HttpResult Unit) :
    (∀ st : ProductCard.State,
      ProductCard.handleAddToCartSync none st = (st, [.navigate "/auth"], false) ∧
      (ProductCard.handleAddToCart none product st response).effects = [.navigate "/auth"] ∧
      (ProductCard.handleAddToCart none product st response).state = st) ∧
    (∀ st : ProductDetailPage.State,
      ProductDetailPage.handleAddToCartSync none { st with product := some product }
        = ({ st with product := some product }, [.navigate "/auth"], false) ∧
      (ProductDetailPage.handleAddToCart none { st with product := some product } response).effects
        = [.navigate "/auth"] ∧
      (ProductDetailPage.handleAddToCart none { st with product := some product } response).state
        = { st with product := some product }) := by
  refine ⟨fun st => ?_, fun st => ?_⟩
  · simp [ProductCard.handleAddToCart, ProductCard.handleAddToCartSync]
  · simp [ProductDetailPage.handleAddToCart, ProductDetailPage.handleAddToCartSync]

/-- The line amount of an item that carries a product is the product of
price and quantity when price, quantity and their product are Number values. -/
theorem lineAmount_exact (id : String) (quantity : Int) (product : Product)
    (hprice : toDouble product.price = .finite product.price)
    (hquantity : toDouble (quantity : ℚ) = .finite quantity)
    (hproduct : toDouble (product.price * quantity) = .finite (product.price * quantity)) :
    lineAmount { product_id := id, quantity := quantity, product := some product }
      = .finite (product.price * quantity) := by
  show JsNumber.mul ((toDouble product.price).orZero) (toDouble (quantity : ℚ)) = _
  rw [hprice, hquantity, JsNumber.orZero_finite]
  exact hproduct

/-- Left fold of `sum + lineAmount item` from a finite accumulator: exact when
every price, quantity, product and partial sum is a Number value. -/
theorem foldl_lineAmount_exact (lines : List (String × Int × Product)) (acc : ℚ)
    (hprice : ∀ line ∈ lines, toDouble line.2.2.price = .finite line.2.2.price)
    (hquantity : ∀ line ∈ lines, toDouble (line.2.1 : ℚ) = .finite line.2.1)
    (hproduct : ∀ line ∈ lines,
      toDouble (line.2.2.price * line.2.1) = .finite (line.2.2.price * line.2.1))
    (hsum : ∀ k : Nat,
      toDouble (acc + ((lines.take k).map (fun line => line.2.2.price * (line.2.1 : ℚ))).sum)
        = .finite (acc + ((lines.take k).map (fun line => line.2.2.price * (line.2.1 : ℚ))).sum)) :
    (lines.map (fun line =>
        ({ product_id := line.1, quantity := line.2.1, product := some line.2.2 } : CartItem))).foldl
        (fun (sum : JsNumber) (item : CartItem) => sum.add (lineAmount item)) (JsNumber.finite acc)
      = JsNumber.finite (acc + (lines.map (fun line => line.2.2.price * (line.2.1 : ℚ))).sum) := by
  induction lines generalizing acc with
  | nil => simp
  | cons line rest ih =>
    have hline := lineAmount_exact line.1 line.2.1 line.2.2
      (hprice line (List.mem_cons_self _ _)) (hquantity line (List.mem_cons_self _ _))
      (hproduct line (List.mem_cons_self _ _))
    have hfirst : (JsNumber.finite acc).add (JsNumber.finite (line.2.2.price * line.2.1))
        = JsNumber.finite (acc + line.2.2.price * line.2.1) := by
      have h1 := hsum 1
      simp only [List.take_succ_cons, List.take_zero, List.map_cons, List.map_nil,
        List.sum_cons, List.sum_nil, add_zero] at h1
      exact h1
    rw [List.map_cons, List.foldl_cons, hline, hfirst,
      ih (acc + line.2.2.price * line.2.1)
        (fun l hl => hprice l (List.mem_cons_of_mem _ hl))
        (fun l hl => hquantity l (List.mem_cons_of_mem _ hl))
        (fun l hl => hproduct l (List.mem_cons_of_mem _ hl))
        (fun k => by
          have hk := hsum (k + 1)
          simp only [List.take_succ_cons, List.map_cons, List.sum_cons] at hk
          rw [add_assoc]
          exact hk)]
    rw [List.map_cons, List.sum_cons, add_assoc]

/-- The total of a cart page holding items is the reduction of their amounts. -/
theorem CartPage.getTotal_items (items : List CartItem) (loading : Bool) :
    CartPage.getTotal { cart := some { items := some items }, loading := loading }
      = items.foldl (fun (sum : JsNumber) (item : CartItem) => sum.add (lineAmount item))
          (JsNumber.finite 0) := rfl

/-- The integer 3 is a Number value. -/
theorem toDouble_three : toDouble 3 = .finite 3 := by
  have h := toDouble_safeInt 3 (by norm_num [abs_of_pos])
  norm_num at h
  exact h

/-- The Number printed as `0.30000000000000004` is a Number value. -/
theorem toDouble_three_tenths_fixed :
    toDouble (1351079888211149 / 4503599627370496)
      = .finite (1351079888211149 / 4503599627370496) := by
  have h := toDouble_dyadic 1351079888211149 (-52) (by norm_num [abs_of_pos]) (by norm_num)
    (by norm_num [abs_of_pos])
  norm_num at h
  exact h

/-- C7, as stated, fails: for the cart of one line with price 0.1 and quantity
3, `getTotal` is the Number 1351079888211149 / 4503599627370496, printed as
`0.30000000000000004`, not price × quantity. -/
theorem CartPage.getTotal_rounds_tenths :
    CartPage.getTotal
        { cart := some { items := some [
            ⟨"p1", 3, some { id := "p1", name := "Ball", price := 1 / 10, stock := 9 }⟩] }
          loading := false }
      = .finite (1351079888211149 / 4503599627370496) ∧
    CartPage.getTotal
        { cart := some { items := some [
            ⟨"p1", 3, some { id := "p1", name := "Ball", price := 1 / 10, stock := 9 }⟩] }
          loading := false }
      ≠ .finite ((1 / 10 : ℚ) * 3) := by
  have hline : lineAmount
      ⟨"p1", 3, some { id := "p1", name := "Ball", price := 1 / 10, stock := 9 }⟩
      = .finite (1351079888211149 / 4503599627370496) := by
    show JsNumber.mul ((toDouble (1 / 10)).orZero) (toDouble ((3 : Int) : ℚ)) = _
    rw [toDouble_tenth, JsNumber.orZero_finite,
      show ((3 : Int) : ℚ) = 3 by norm_cast, toDouble_three]
    exact toDouble_three_tenths
  have htotal : CartPage.getTotal
      { cart := some { items := some [
          ⟨"p1", 3, some { id := "p1", name := "Ball", price := 1 / 10, stock := 9 }⟩] }
        loading := false }
      = .finite (1351079888211149 / 4503599627370496) := by
    rw [CartPage.getTotal_items, List.foldl_cons, List.foldl_nil, hline]
    show toDouble (0 + 1351079888211149 / 4503599627370496) = _
    rw [zero_add, toDouble_three_tenths_fixed]
  refine ⟨htotal, ?_⟩
  rw [htotal]
  norm_num

/-- The text `toFixed(2)` gives for the Number 25.5. -/
theorem toFixed_scenario (numberToString : ℚ → String) :
    JsNumber.toFixed numberToString (.finite (51 / 2)) 2 = "25.50" := by
  have hfloor : ⌊|(51 / 2 : ℚ)| * 10 ^ 2 + 1 / 2⌋ = 2550 := by
    rw [Int.floor_eq_iff]
    norm_num [abs_of_pos]
  have hbig : ¬ ((10 : ℚ) ^ 21 ≤ |(51 / 2 : ℚ)|) := by norm_num [abs_of_pos]
  have hneg : ¬ ((51 / 2 : ℚ) < 0) := by norm_num
  simp only [JsNumber.toFixed, fixedDigits, hfloor, hbig, hneg, if_false]
  decide

/-- The total of the scenario cart: (price 10.00, qty 2) and (price 5.50,
qty 1) give the Number 25.5. -/
theorem CartPage.getTotal_scenario (idA idB nameA nameB : String) (stockA stockB : Int)
    (loading : Bool) :
    CartPage.getTotal
        { cart := some { items := some [
            ⟨idA, 2, some { id := idA, name := nameA, price := 10, stock := stockA }⟩,
            ⟨idB, 1, some { id := idB, name := nameB, price := 11 / 2, stock := stockB }⟩] }
          loading := loading } = .finite (51 / 2) := by
  have h10 : toDouble 10 = .finite 10 := by
    have h := toDouble_safeInt 10 (by norm_num [abs_of_pos])
    norm_num at h
    exact h
  have h2 : toDouble 2 = .finite 2 := by
    have h := toDouble_safeInt 2 (by norm_num [abs_of_pos])
    norm_num at h
    exact h
  have h20 : toDouble 20 = .finite 20 := by
    have h := toDouble_safeInt 20 (by norm_num [abs_of_pos])
    norm_num at h
    exact h
  have h112 : toDouble (11 / 2) = .finite (11 / 2) := by
    have h := toDouble_dyadic 11 (-1) (by norm_num [abs_of_pos]) (by norm_num)
      (by norm_num [abs_of_pos])
    norm_num at h
    exact h
  have h512 : toDouble (51 / 2) = .finite (51 / 2) := by
    have h := toDouble_dyadic 51 (-1) (by norm_num [abs_of_pos]) (by norm_num)
      (by norm_num [abs_of_pos])
    norm_num at h
    exact h
  have hA : lineAmount ⟨idA, 2, some { id := idA, name := nameA, price := 10, stock := stockA }⟩
      = .finite 20 := by
    have h := lineAmount_exact idA 2 { id := idA, name := nameA, price := 10, stock := stockA }
      h10 (by rw [show ((2 : Int) : ℚ) = 2 by norm_cast]; exact h2)
      (by rw [show ((10 : ℚ) * ((2 : Int) : ℚ)) = 20 by norm_num]; exact h20)
    rw [h]
    norm_num
  have hB : lineAmount
      ⟨idB, 1, some { id := idB, name := nameB, price := 11 / 2, stock := stockB }⟩
      = .finite (11 / 2) := by
    have h := lineAmount_exact idB 1
      { id := idB, name := nameB, price := 11 / 2, stock := stockB }
      h112 (by rw [Int.cast_one]; exact toDouble_one)
      (by rw [show ((11 / 2 : ℚ) * ((1 : Int) : ℚ)) = 11 / 2 by norm_num]; exact h112)
    rw [h]
    norm_num
  rw [CartPage.getTotal_items, List.foldl_cons, List.foldl_cons, List.foldl_nil, hA, hB]
  have hfirst : (JsNumber.finite 0).add (JsNumber.finite 20) = JsNumber.finite 20 := by
    show toDouble (0 + 20) = _
    rw [zero_add, h20]
  have hsecond : (JsNumber.finite 20).add (JsNumber.finite (11 / 2)) = JsNumber.finite (51 / 2) := by
    show toDouble (20 + 11 / 2) = _
    rw [show ((20 : ℚ) + 11 / 2) = 51 / 2 by norm_num, h512]
  rw [hfirst, hsecond]

/-- C7, amended: for every cart whose items each carry a product (given as
the list of product id, quantity and product of each line), when every price,
every quantity, every product price × quantity and every partial sum taken in
item order is a Number value (is left unchanged by the rounding), `getTotal`
is the sum over the lines of price × quantity; the `total` span shows the same
text as the `subtotal` span for every state; and for the cart of (price 10.00,
qty 2) and (price 5.50, qty 1) `getTotal` is 25.5 and both spans show
`$25.50`. -/
theorem CartPage.getTotal_sum_and_total_eq_subtotal (lines : List (String × Int × Product))
    (loading : Bool)
    (hprice : ∀ line ∈ lines, toDouble line.2.2.price = .finite line.2.2.price)
    (hquantity : ∀ line ∈ lines, toDouble (line.2.1 : ℚ) = .finite line.2.1)
    (hproduct : ∀ line ∈ lines,
      toDouble (line.2.2.price * line.2.1) = .finite (line.2.2.price * line.2.1))
    (hsum : ∀ k : Nat,
      toDouble (((lines.take k).map (fun line => line.2.2.price * (line.2.1 : ℚ))).sum)
        = .finite (((lines.take k).map (fun line => line.2.2.price * (line.2.1 : ℚ))).sum)) :
    CartPage.getTotal
        { cart := some { items := some (lines.map (fun line =>
            ({ product_id := line.1, quantity := line.2.1, product := some line.2.2 }
              : CartItem))) }
          loading := loading }
      = .finite ((lines.map (fun line => line.2.2.price * (line.2.1 : ℚ))).sum) ∧
    (∀ (numberToString : ℚ → String) (st : CartPage.State),
      CartPage.totalText numberToString st = CartPage.subtotalText numberToString st) ∧
    (∀ (numberToString : ℚ → String) (idA idB nameA nameB : String) (stockA stockB : Int)
        (loading' : Bool),
      CartPage.getTotal
          { cart := some { items := some [
              ⟨idA, 2, some { id := idA, name := nameA, price := 10, stock := stockA }⟩,
              ⟨idB, 1, some { id := idB, name := nameB, price := 11 / 2, stock := stockB }⟩] }
            loading := loading' } = .finite (51 / 2) ∧
      CartPage.subtotalText numberToString
          { cart := some { items := some [
              ⟨idA, 2, some { id := idA, name := nameA, price := 10, stock := stockA }⟩,
              ⟨idB, 1, some { id := idB, name := nameB, price := 11 / 2, stock := stockB }⟩] }
            loading := loading' } = "$25.50" ∧
      CartPage.totalText numberToString
          { cart := some { items := some [
              ⟨idA, 2, some { id := idA, name := nameA, price := 10, stock := stockA }⟩,
              ⟨idB, 1, some { id := idB, name := nameB, price := 11 / 2, stock := stockB }⟩] }
            loading := loading' } = "$25.50") := by
  refine ⟨?_, ?_, ?_⟩
  · have h := foldl_lineAmount_exact lines 0 hprice hquantity hproduct
      (fun k => by rw [zero_add]; exact hsum k)
    rw [CartPage.getTotal_items, h, zero_add]
  · intro numberToString st
    rfl
  · intro numberToString idA idB nameA nameB stockA stockB loading'
    have hval := CartPage.getTotal_scenario idA idB nameA nameB stockA stockB loading'
    refine ⟨hval, ?_, ?_⟩
    · show "$" ++ (CartPage.getTotal _).toFixed numberToString 2 = "$25.50"
      rw [hval, toFixed_scenario]
      decide
    · show "$" ++ (CartPage.getTotal _).toFixed numberToString 2 = "$25.50"
      rw [hval, toFixed_scenario]
      decide

/-- The prices, quantities, products and partial sums of the scenario cart are
Number values. -/
theorem scenario_lines_exact :
    (∀ line ∈ ([("p1", 2, { id := "p1", name := "Blocks", price := 10, stock := 4 }),
        ("p2", 1, { id := "p2", name := "Ball", price := 11 / 2, stock := 9 })]
          : List (String × Int × Product)),
      toDouble line.2.2.price = .finite line.2.2.price) ∧
    (∀ line ∈ ([("p1", 2, { id := "p1", name := "Blocks", price := 10, stock := 4 }),
        ("p2", 1, { id := "p2", name := "Ball", price := 11 / 2, stock := 9 })]
          : List (String × Int × Product)),
      toDouble (line.2.1 : ℚ) = .finite line.2.1) ∧
    (∀ line ∈ ([("p1", 2, { id := "p1", name := "Blocks", price := 10, stock := 4 }),
        ("p2", 1, { id := "p2", name := "Ball", price := 11 / 2, stock := 9 })]
          : List (String × Int × Product)),
      toDouble (line.2.2.price * line.2.1) = .finite (line.2.2.price * line.2.1)) ∧
    (∀ k : Nat,
      toDouble ((((([("p1", 2, { id := "p1", name := "Blocks", price := 10, stock := 4 }),
        ("p2", 1, { id := "p2", name := "Ball", price := 11 / 2, stock := 9 })]
          : List (String × Int × Product))).take k).map
            (fun line => line.2.2.price * (line.2.1 : ℚ))).sum)
        = .finite ((((([("p1", 2, { id := "p1", name := "Blocks", price := 10, stock := 4 }),
        ("p2", 1, { id := "p2", name := "Ball", price := 11 / 2, stock := 9 })]
          : List (String × Int × Product))).take k).map
            (fun line => line.2.2.price * (line.2.1 : ℚ))).sum)) := by
  have h10 : toDouble 10 = .finite 10 := by
    have h := toDouble_safeInt 10 (by norm_num [abs_of_pos])
    norm_num at h
    exact h
  have h2 : toDouble 2 = .finite 2 := by
    have h := toDouble_safeInt 2 (by norm_num [abs_of_pos])
    norm_num at h
    exact h
  have h20 : toDouble 20 = .finite 20 := by
    have h := toDouble_safeInt 20 (by norm_num [abs_of_pos])
    norm_num at h
    exact h
  have h112 : toDouble (11 / 2) = .finite (11 / 2) := by
    have h := toDouble_dyadic 11 (-1) (by norm_num [abs_of_pos]) (by norm_num)
      (by norm_num [abs_of_pos])
    norm_num at h
    exact h
  have h512 : toDouble (51 / 2) = .finite (51 / 2) := by
    have h := toDouble_dyadic 51 (-1) (by norm_num [abs_of_pos]) (by norm_num)
      (by norm_num [abs_of_pos])
    norm_num at h
    exact h
  refine ⟨?_, ?_, ?_, ?_⟩
  · intro line hline
    rw [List.mem_cons, List.mem_singleton] at hline
    rcases hline with rfl | rfl
    · exact h10
    · exact h112
  · intro line hline
    rw [List.mem_cons, List.mem_singleton] at hline
    rcases hline with rfl | rfl
    · show toDouble ((2 : Int) : ℚ) = .finite ((2 : Int) : ℚ)
      rw [show ((2 : Int) : ℚ) = 2 by norm_cast]
      exact h2
    · show toDouble ((1 : Int) : ℚ) = .finite ((1 : Int) : ℚ)
      rw [Int.cast_one]
      exact toDouble_one
  · intro line hline
    rw [List.mem_cons, List.mem_singleton] at hline
    rcases hline with rfl | rfl
    · show toDouble ((10 : ℚ) * ((2 : Int) : ℚ)) = .finite ((10 : ℚ) * ((2 : Int) : ℚ))
      rw [show ((10 : ℚ) * ((2 : Int) : ℚ)) = 20 by norm_num]
      exact h20
    · show toDouble ((11 / 2 : ℚ) * ((1 : Int) : ℚ)) = .finite ((11 / 2 : ℚ) * ((1 : Int) : ℚ))
      rw [show ((11 / 2 : ℚ) * ((1 : Int) : ℚ)) = 11 / 2 by norm_num]
      exact h112
  · intro k
    rcases k with _ | _ | k
    · show toDouble 0 = .finite 0
      exact toDouble_zero
    · show toDouble ((10 : ℚ) * ((2 : Int) : ℚ) + 0) = .finite ((10 : ℚ) * ((2 : Int) : ℚ) + 0)
      rw [show ((10 : ℚ) * ((2 : Int) : ℚ) + 0) = 20 by norm_num]
      exact h20
    · simp only [List.take_succ_cons, List.take_nil, List.map_cons, List.map_nil,
        List.sum_cons, List.sum_nil]
      show toDouble ((10 : ℚ) * ((2 : Int) : ℚ) + ((11 / 2 : ℚ) * ((1 : Int) : ℚ) + 0))
        = .finite ((10 : ℚ) * ((2 : Int) : ℚ) + ((11 / 2 : ℚ) * ((1 : Int) : ℚ) + 0))
      rw [show ((10 : ℚ) * ((2 : Int) : ℚ) + ((11 / 2 : ℚ) * ((1 : Int) : ℚ) + 0)) = 51 / 2
        by norm_num]
      exact h512

/-- Witness of C7, amended, at the scenario cart: its total is the sum of
price × quantity over its two lines. -/
theorem CartPage.getTotal_sum_and_total_eq_subtotal_witness :
    CartPage.getTotal
        { cart := some { items := some (([
            ("p1", 2, { id := "p1", name := "Blocks", price := 10, stock := 4 }),
            ("p2", 1, { id := "p2", name := "Ball", price := 11 / 2, stock := 9 })]
              : List (String × Int × Product)).map (fun line =>
            ({ product_id := line.1, quantity := line.2.1, product := some line.2.2 }
              : CartItem))) }
          loading := false }
      = .finite ((([("p1", 2, { id := "p1", name := "Blocks", price := 10, stock := 4 }),
          ("p2", 1, { id := "p2", name := "Ball", price := 11 / 2, stock := 9 })]
            : List (String × Int × Product)).map
              (fun line => line.2.2.price * (line.2.1 : ℚ))).sum) :=
  (CartPage.getTotal_sum_and_total_eq_subtotal
    [("p1", 2, { id := "p1", name := "Blocks", price := 10, stock := 4 }),
      ("p2", 1, { id := "p2", name := "Ball", price := 11 / 2, stock := 9 })] false
    scenario_lines_exact.1 scenario_lines_exact.2.1 scenario_lines_exact.2.2.1
    scenario_lines_exact.2.2.2).1

/-- The mapped order of a non-empty item list is non-empty. -/
theorem CheckoutPage.orderItems_cons_ne_nil (item : CartItem) (rest : List CartItem)
    (mapped : List OrderItem) (h : CheckoutPage.orderItems (item :: rest) = some mapped) :
    mapped ≠ [] := by
  unfold CheckoutPage.orderItems at h
  cases hp : item.product with
  | none => simp [hp] at h
  | some product =>
    cases hr : CheckoutPage.orderItems rest with
    | none => simp [hp, hr] at h
    | some tail =>
      simp [hp, hr] at h
      subst h
      simp

/-- The mount effect establishes the cart invariant. -/
theorem CheckoutPage.fetchCart_invariant (response : HttpResult CartData) :
    CheckoutPage.cartUnsetOrNonEmpty
      (CheckoutPage.fetchCart CheckoutPage.initialState response).state := by
  cases response with
  | error detail => left; simp [CheckoutPage.fetchCart, CheckoutPage.initialState]
  | ok data =>
    obtain ⟨items⟩ := data
    cases items with
    | none => left; simp [CheckoutPage.fetchCart, CheckoutPage.initialState]
    | some items =>
      cases items with
      | nil => left; simp [CheckoutPage.fetchCart, CheckoutPage.initialState]
      | cons item rest =>
        right
        exact ⟨item :: rest, by simp [CheckoutPage.fetchCart], by simp⟩

/-- No event handler writes the cart cell. -/
theorem CheckoutPage.step_cart (st : CheckoutPage.State) (ev : CheckoutPage.Event) :
    (CheckoutPage.step st ev).1.cart = st.cart := by
  cases ev with
  | input field value => cases field <;> simp [CheckoutPage.step, CheckoutPage.handleInputChange]
  | submit response =>
    simp only [CheckoutPage.step, CheckoutPage.handleSubmit, CheckoutPage.submitFailed]
    split
    · rfl
    · split
      · rfl
      · split
        · rfl
        · split
          · rfl
          · split <;> rfl

/-- No sequence of events writes the cart cell. -/
theorem CheckoutPage.run_cart (st : CheckoutPage.State) (events : List CheckoutPage.Event) :
    (CheckoutPage.run st events).1.cart = st.cart := by
  induction events generalizing st with
  | nil => rfl
  | cons ev rest ih => simp [CheckoutPage.run, ih, CheckoutPage.step_cart]

/-- A submit in a state whose cart is unset or non-empty posts no empty order. -/
theorem CheckoutPage.handleSubmit_no_empty_order (st : CheckoutPage.State)
    (response : HttpResult OrderData) (h : CheckoutPage.cartUnsetOrNonEmpty st) :
    (CheckoutPage.handleSubmit st response).effects.all
      (fun e => !CheckoutPage.isEmptyOrder e) = true := by
  unfold CheckoutPage.handleSubmit
  split
  · simp [CheckoutPage.isEmptyOrder]
  · rcases h with h | ⟨items, h, hne⟩
    · simp [h, CheckoutPage.submitFailed, CheckoutPage.isEmptyOrder]
    · cases items with
      | nil => exact absurd rfl hne
      | cons item rest =>
        simp only [h]
        cases hm : CheckoutPage.orderItems (item :: rest) with
        | none => simp [CheckoutPage.submitFailed, CheckoutPage.isEmptyOrder]
        | some mapped =>
          have hmapped := CheckoutPage.orderItems_cons_ne_nil item rest mapped hm
          cases mapped with
          | nil => exact absurd rfl hmapped
          | cons first more =>
            cases response <;> simp [CheckoutPage.submitFailed, CheckoutPage.isEmptyOrder]

/-- A submit in a state whose cart is unset sends no request. -/
theorem CheckoutPage.handleSubmit_unset_no_request (st : CheckoutPage.State)
    (response : HttpResult OrderData) (h : st.cart = none) :
    (CheckoutPage.handleSubmit st response).effects.all
      (fun e => !e.isAnyRequest) = true := by
  unfold CheckoutPage.handleSubmit
  split
  · simp [Effect.isAnyRequest]
  · simp [h, CheckoutPage.submitFailed, Effect.isAnyRequest]

/-- Events from a state with the invariant post no empty order. -/
theorem CheckoutPage.run_no_empty_order (st : CheckoutPage.State)
    (events : List CheckoutPage.Event) (h : CheckoutPage.cartUnsetOrNonEmpty st) :
    (CheckoutPage.run st events).2.all (fun e => !CheckoutPage.isEmptyOrder e) = true := by
  induction events generalizing st with
  | nil => simp [CheckoutPage.run]
  | cons ev rest ih =>
    have hstep : CheckoutPage.cartUnsetOrNonEmpty (CheckoutPage.step st ev).1 := by
      unfold CheckoutPage.cartUnsetOrNonEmpty at h ⊢
      rw [CheckoutPage.step_cart]
      exact h
    have hev : (CheckoutPage.step st ev).2.all (fun e => !CheckoutPage.isEmptyOrder e) = true := by
      cases ev with
      | input field value => simp [CheckoutPage.step]
      | submit response => exact CheckoutPage.handleSubmit_no_empty_order st response h
    simp only [CheckoutPage.run, List.all_append, Bool.and_eq_true]
    exact ⟨hev, ih _ hstep⟩

/-- Events from a state with the cart unset send no request at all. -/
theorem CheckoutPage.run_unset_no_request (st : CheckoutPage.State)
    (events : List CheckoutPage.Event) (h : st.cart = none) :
    (CheckoutPage.run st events).2.all (fun e => !e.isAnyRequest) = true := by
  induction events generalizing st with
  | nil => simp [CheckoutPage.run]
  | cons ev rest ih =>
    have hstep : (CheckoutPage.step st ev).1.cart = none := by
      rw [CheckoutPage.step_cart]
      exact h
    have hev : (CheckoutPage.step st ev).2.all (fun e => !e.isAnyRequest) = true := by
      cases ev with
      | input field value => simp [CheckoutPage.step]
      | submit response => exact CheckoutPage.handleSubmit_unset_no_request st response h
    simp only [CheckoutPage.run, List.all_append, Bool.and_eq_true]
    exact ⟨hev, ih _ hstep⟩

/-- An order `POST` is a request. -/
theorem CheckoutPage.isOrderPost_isAnyRequest (e : Effect)
    (h : e.isAnyRequest = false) : CheckoutPage.isOrderPost e = false := by
  cases e <;> simp_all [CheckoutPage.isOrderPost, Effect.isRequestTo, Effect.isAnyRequest]

/-- C8: when the cart fetched at mount has zero items the view toasts "Your
cart is empty", navigates to `/cart`, leaves its cart cell unset, and no later
sequence of inputs and submits posts an order; after every mount answer and
every sequence of events the cart cell is unset or holds a non-empty item
list; a submit with the cart cell unset sends no request; and no trace of the
view contains a `POST /api/orders` with an empty `items` array. -/
theorem CheckoutPage.no_order_for_empty_cart (events : List CheckoutPage.Event) :
    (CheckoutPage.fetchCart CheckoutPage.initialState (.ok { items := some [] })).effects
      = [.request .GET "/api/cart" .empty, .toastError "Your cart is empty", .navigate "/cart"] ∧
    (CheckoutPage.fetchCart CheckoutPage.initialState (.ok { items := some [] })).state.cart
      = none ∧
    ((CheckoutPage.session (.ok { items := some [] }) events).2.all
      (fun e => !CheckoutPage.isOrderPost e) = true) ∧
    (∀ cartResponse : HttpResult CartData,
      CheckoutPage.cartUnsetOrNonEmpty (CheckoutPage.session cartResponse events).1) ∧
    (∀ (loading isProcessing : Bool) (formData : ShippingForm) (response : HttpResult OrderData),
      (CheckoutPage.handleSubmit
          { cart := none, loading := loading, isProcessing := isProcessing, formData := formData }
          response).effects.all (fun e => !e.isAnyRequest) = true) ∧
    (∀ cartResponse : HttpResult CartData,
      (CheckoutPage.session cartResponse events).2.all
        (fun e => !CheckoutPage.isEmptyOrder e) = true) := by
  refine ⟨?_, ?_, ?_, ?_, ?_, ?_⟩
  · simp [CheckoutPage.fetchCart, API]
  · simp [CheckoutPage.fetchCart, CheckoutPage.initialState]
  · have hnone : (CheckoutPage.fetchCart CheckoutPage.initialState
        (.ok { items := some [] })).state.cart = none := by
      simp [CheckoutPage.fetchCart, CheckoutPage.initialState]
    have hall := CheckoutPage.run_unset_no_request _ events hnone
    have hrun : (CheckoutPage.run (CheckoutPage.fetchCart CheckoutPage.initialState
        (.ok { items := some [] })).state events).2.all
        (fun e => !CheckoutPage.isOrderPost e) = true := by
      rw [List.all_eq_true] at hall ⊢
      intro e he
      have := hall e he
      simp only [Bool.not_eq_true'] at this ⊢
      exact CheckoutPage.isOrderPost_isAnyRequest e this
    simp only [CheckoutPage.session, List.all_append, Bool.and_eq_true]
    refine ⟨?_, hrun⟩
    simp [CheckoutPage.fetchCart, CheckoutPage.isOrderPost, Effect.isRequestTo]
  · intro cartResponse
    have hinv := CheckoutPage.fetchCart_invariant cartResponse
    unfold CheckoutPage.cartUnsetOrNonEmpty at hinv ⊢
    simp only [CheckoutPage.session]
    rw [CheckoutPage.run_cart]
    exact hinv
  · intro loading isProcessing formData response
    exact CheckoutPage.handleSubmit_unset_no_request _ response rfl
  · intro cartResponse
    simp only [CheckoutPage.session, List.all_append, Bool.and_eq_true]
    refine ⟨?_, CheckoutPage.run_no_empty_order _ events
      (CheckoutPage.fetchCart_invariant cartResponse)⟩
    cases cartResponse with
    | error detail => simp [CheckoutPage.fetchCart, CheckoutPage.isEmptyOrder]
    | ok data =>
      obtain ⟨items⟩ := data
      cases items with
      | none => simp [CheckoutPage.fetchCart, CheckoutPage.isEmptyOrder]
      | some items =>
        cases items <;> simp [CheckoutPage.fetchCart, CheckoutPage.isEmptyOrder]

/-- Items that all carry a product are mapped without a throw. -/
theorem CheckoutPage.orderItems_of_products (items : List CartItem)
    (h : ∀ item ∈ items, item.product ≠ none) :
    ∃ mapped, CheckoutPage.orderItems items = some mapped := by
  induction items with
  | nil => exact ⟨[], rfl⟩
  | cons item rest ih =>
    obtain ⟨tail, htail⟩ := ih (fun it hit => h it (List.mem_cons_of_mem _ hit))
    cases hp : item.product with
    | none => exact absurd hp (h item (List.mem_cons_self _ _))
    | some product =>
      exact ⟨{ product_id := item.product_id, name := product.name, price := product.price,
               quantity := item.quantity } :: tail,
        by simp [CheckoutPage.orderItems, hp, htail]⟩

/-- C9: in a checkout state whose cart holds a non-empty item list, every item
carrying its product, and whose six shipping fields are all non-empty, a
submit answered by a successful `POST /api/orders` performs, in order, that
request, the success toast "Order placed successfully!", a call of
`fetchCartCount` and `navigate('/profile')`, and ends fulfilled with
`isProcessing` false. -/
theorem CheckoutPage.handleSubmit_success (st : CheckoutPage.State) (items : List CartItem)
    (data : OrderData)
    (hcart : st.cart = some { items := some items })
    (hne : items ≠ [])
    (hproducts : ∀ item ∈ items, item.product ≠ none)
    (hname : st.formData.name ≠ "") (haddress : st.formData.address ≠ "")
    (hcity : st.formData.city ≠ "") (hstate : st.formData.state ≠ "")
    (hzip : st.formData.zipCode ≠ "") (hphone : st.formData.phone ≠ "") :
    ∃ mapped, CheckoutPage.orderItems items = some mapped ∧ mapped ≠ [] ∧
      (CheckoutPage.handleSubmit st (.ok data)).effects
        = [.request .POST "/api/orders" (.order mapped st.formData),
           .toastSuccess "Order placed successfully!", .fetchCartCount, .navigate "/profile"] ∧
      (CheckoutPage.handleSubmit st (.ok data)).state.isProcessing = false ∧
      (CheckoutPage.handleSubmit st (.ok data)).completion = .fulfilled := by
  obtain ⟨mapped, hmapped⟩ := CheckoutPage.orderItems_of_products items hproducts
  have hmne : mapped ≠ [] := by
    cases items with
    | nil => exact absurd rfl hne
    | cons item rest => exact CheckoutPage.orderItems_cons_ne_nil item rest mapped hmapped
  refine ⟨mapped, hmapped, hmne, ?_⟩
  simp [CheckoutPage.handleSubmit, CheckoutPage.someFieldEmpty, hname, haddress, hcity, hstate,
    hzip, hphone, hcart, hmapped, API]

/-- Witness of C9 at the example state. -/
theorem CheckoutPage.handleSubmit_success_witness :
    ∃ mapped, CheckoutPage.orderItems
        [{ product_id := "p1", quantity := 2
           product := some { id := "p1", name := "Blocks", price := 10, stock := 4 } },
         { product_id := "p2", quantity := 1
           product := some { id := "p2", name := "Kite", price := 11 / 2, stock := 9 } }]
        = some mapped ∧ mapped ≠ [] ∧
      (CheckoutPage.handleSubmit CheckoutPage.exampleState (.ok { id := "o1" })).effects
        = [.request .POST "/api/orders" (.order mapped CheckoutPage.exampleState.formData),
           .toastSuccess "Order placed successfully!", .fetchCartCount, .navigate "/profile"] ∧
      (CheckoutPage.handleSubmit CheckoutPage.exampleState (.ok { id := "o1" })).state.isProcessing
        = false ∧
      (CheckoutPage.handleSubmit CheckoutPage.exampleState (.ok { id := "o1" })).completion
        = .fulfilled :=
  CheckoutPage.handleSubmit_success CheckoutPage.exampleState _ { id := "o1" } rfl
    (by simp) (by simp) (by decide) (by decide) (by decide) (by decide) (by decide) (by decide)

/-- C10: when the `GET /api/cart` of `fetchCartCount` is rejected, or its body
has no `items` to reduce, the state is left exactly as it was (so `cartCount`,
Identity, the persisted token and the Authorization header are unchanged), the
promise is fulfilled, not rejected, and the only effect after the request is a
console log. -/
theorem App.fetchCartCount_failure_keeps_state (st : App.AppState) (detail : Option String) :
    (App.fetchCartCount st (.error detail)).state = st ∧
    (App.fetchCartCount st (.error detail)).completion = .fulfilled ∧
    (App.fetchCartCount st (.error detail)).effects
      = [.request .GET "/api/cart" .empty, .consoleError "Failed to fetch cart:"] ∧
    (App.fetchCartCount st (.ok { items := none })).state = st ∧
    (App.fetchCartCount st (.ok { items := none })).completion = .fulfilled ∧
    (App.fetchCartCount st (.ok { items := none })).effects
      = [.request .GET "/api/cart" .empty, .consoleError "Failed to fetch cart:"] := by
  simp [App.fetchCartCount, API]

/-- C11: for every token `t`, identity `u` and prior state, right after
`login(t, u)` the persisted token is `t`, the Authorization default header is
`"Bearer "` followed by `t`, and Identity is `u`. -/
theorem App.login_sets_token_header_identity (st : App.AppState) (t : String) (u : User) :
    (App.login st t u).token = some t ∧
    (App.login st t u).authorization = some ("Bearer " ++ t) ∧
    (App.login st t u).user = some u := by
  simp [App.login]

/-- C12: for every prior state, right after `logout()` no token is persisted,
the Authorization default header is absent and Identity is null. -/
theorem App.logout_clears_token_header_identity (st : App.AppState) :
    (App.logout st).token = none ∧
    (App.logout st).authorization = none ∧
    (App.logout st).user = none := by
  simp [App.logout]

/-- C13: with a non-empty token `t` in `localStorage` at mount, the
synchronous part of the mount effect installs the header `"Bearer " ++ t` and
then calls `fetchUser`, so the `GET /api/auth/me` is issued from a state that
already carries the header; when that request succeeds with `data`, it is the
only effect, Identity is `data`, the token is still persisted, the header is
still attached and `loading` is false. -/
theorem App.startup_with_token_success (t : String) (ht : t ≠ "") (data : User)
    (me : HttpResult User) :
    App.startupSync (App.initialState (some t))
      = ({ App.initialState (some t) with authorization := some ("Bearer " ++ t) }, true) ∧
    App.startup (App.initialState (some t)) me
      = App.fetchUser { App.initialState (some t) with authorization := some ("Bearer " ++ t) } me ∧
    (App.startup (App.initialState (some t)) (.ok data)).effects
      = [.request .GET "/api/auth/me" .empty] ∧
    (App.startup (App.initialState (some t)) (.ok data)).state.user = some data ∧
    (App.startup (App.initialState (some t)) (.ok data)).state.token = some t ∧
    (App.startup (App.initialState (some t)) (.ok data)).state.authorization
      = some ("Bearer " ++ t) ∧
    (App.startup (App.initialState (some t)) (.ok data)).state.loading = false := by
  refine ⟨?_, ?_, ?_, ?_, ?_, ?_, ?_⟩ <;>
    simp [App.startup, App.startupSync, App.initialState, truthy, ht, App.fetchUser, API]

/-- Witness of C13 at the token `"abc"`. -/
theorem App.startup_with_token_success_witness :
    (App.startup (App.initialState (some "abc"))
        (.ok { id := "u1", name := "Ada", email := "ada@example.org" })).state.user
      = some { id := "u1", name := "Ada", email := "ada@example.org" } ∧
    (App.startup (App.initialState (some "abc"))
        (.ok { id := "u1", name := "Ada", email := "ada@example.org" })).state.authorization
      = some ("Bearer " ++ "abc") :=
  ⟨(App.startup_with_token_success "abc" (by decide)
      { id := "u1", name := "Ada", email := "ada@example.org" } (.error none)).2.2.2.1,
   (App.startup_with_token_success "abc" (by decide)
      { id := "u1", name := "Ada", email := "ada@example.org" } (.error none)).2.2.2.2.2.1⟩

/-- C14: the auth view mounts in login mode, the toggle button flips between
the two modes, and for every form content and every answer of the backend a
submit in login mode sends as its only request one `POST /api/auth/login`
with the email and password (none to `/api/auth/register`), a submit in
register mode one `POST /api/auth/register` with the name, email and password
(none to `/api/auth/login`); on a successful answer the request is followed,
in both modes, by `login(access_token, user)`, a success toast and
`navigate('/')`. -/
theorem AuthPage.handleSubmit_by_mode (loading : Bool) (formData : AuthForm)
    (response : HttpResult AuthData) (data : AuthData) :
    AuthPage.initialState.isLogin = true ∧
    (AuthPage.toggle { isLogin := true, loading := loading, formData := formData }).isLogin
      = false ∧
    (AuthPage.toggle { isLogin := false, loading := loading, formData := formData }).isLogin
      = true ∧
    ((AuthPage.handleSubmit { isLogin := true, loading := loading, formData := formData }
        response).effects.head?
      = some (.request .POST "/api/auth/login"
          (.loginCredentials formData.email formData.password))) ∧
    ((AuthPage.handleSubmit { isLogin := true, loading := loading, formData := formData }
        response).effects.countP Effect.isAnyRequest = 1) ∧
    ((AuthPage.handleSubmit { isLogin := true, loading := loading, formData := formData }
        response).effects.countP (Effect.isRequestTo .POST "/api/auth/register") = 0) ∧
    ((AuthPage.handleSubmit { isLogin := false, loading := loading, formData := formData }
        response).effects.head?
      = some (.request .POST "/api/auth/register"
          (.registration formData.name formData.email formData.password))) ∧
    ((AuthPage.handleSubmit { isLogin := false, loading := loading, formData := formData }
        response).effects.countP Effect.isAnyRequest = 1) ∧
    ((AuthPage.handleSubmit { isLogin := false, loading := loading, formData := formData }
        response).effects.countP (Effect.isRequestTo .POST "/api/auth/login") = 0) ∧
    ((AuthPage.handleSubmit { isLogin := true, loading := loading, formData := formData }
        (.ok data)).effects
      = [.request .POST "/api/auth/login" (.loginCredentials formData.email formData.password),
         .login data.access_token data.user, .toastSuccess "Welcome back!", .navigate "/"]) ∧
    ((AuthPage.handleSubmit { isLogin := false, loading := loading, formData := formData }
        (.ok data)).effects
      = [.request .POST "/api/auth/register"
           (.registration formData.name formData.email formData.password),
         .login data.access_token data.user, .toastSuccess "Account created successfully!",
         .navigate "/"]) := by
  refine ⟨rfl, rfl, rfl, ?_, ?_, ?_, ?_, ?_, ?_, ?_, ?_⟩
  · cases response <;> simp [AuthPage.handleSubmit, API]
  · cases response <;> simp [AuthPage.handleSubmit, Effect.isAnyRequest, List.countP_cons]
  · cases response <;>
      simp [AuthPage.handleSubmit, Effect.isRequestTo, List.countP_cons, API]
  · cases response <;> simp [AuthPage.handleSubmit, API]
  · cases response <;> simp [AuthPage.handleSubmit, Effect.isAnyRequest, List.countP_cons]
  · cases response <;>
      simp [AuthPage.handleSubmit, Effect.isRequestTo, List.countP_cons, API]
  · simp [AuthPage.handleSubmit, API]
  · simp [AuthPage.handleSubmit, API]

/-- C15: for every product and every component state, the add-to-wishlist
handlers of `ProductCard` and `ProductDetailPage` run with Identity null
perform the single effect `navigate('/auth')` (so no
`POST /api/wishlist/{product_id}`) and leave the component state as it was. -/
theorem handleAddToWishlist_anonymous (product : Product) (response : HttpResult Unit) :
    (∀ st : ProductCard.State,
      (ProductCard.handleAddToWishlist none product st response).effects = [.navigate "/auth"] ∧
      (ProductCard.handleAddToWishlist none product st response).state = st) ∧
    (∀ st : ProductDetailPage.State,
      (ProductDetailPage.handleAddToWishlist none { st with product := some product }
          response).effects = [.navigate "/auth"] ∧
      (ProductDetailPage.handleAddToWishlist none { st with product := some product }
          response).state = { st with product := some product }) := by
  refine ⟨fun st => ?_, fun st => ?_⟩
  · simp [ProductCard.handleAddToWishlist]
  · simp [ProductDetailPage.handleAddToWishlist]

/-- C16: in every resolved state (`loading` false), with an identity `u` the
routes `/cart`, `/checkout`, `/profile` and `/wishlist` render their view
controllers and `/auth` renders a redirect to `/`; with Identity null the four
routes render a redirect to `/auth`, `/auth` renders the auth view, and no
route at all renders one of the four gated controllers. -/
theorem App.routes_gated_by_identity (u : User) (cartCount : JsNumber)
    (token authorization : Option String) (route : Route) :
    App.render { user := some u, cartCount := cartCount, loading := false, token := token,
                 authorization := authorization } .cart = .cartPage ∧
    App.render { user := some u, cartCount := cartCount, loading := false, token := token,
                 authorization := authorization } .checkout = .checkoutPage ∧
    App.render { user := some u, cartCount := cartCount, loading := false, token := token,
                 authorization := authorization } .profile = .profilePage ∧
    App.render { user := some u, cartCount := cartCount, loading := false, token := token,
                 authorization := authorization } .wishlist = .wishlistPage ∧
    App.render { user := some u, cartCount := cartCount, loading := false, token := token,
                 authorization := authorization } .auth = .navigate "/" ∧
    App.render { user := none, cartCount := cartCount, loading := false, token := token,
                 authorization := authorization } .cart = .navigate "/auth" ∧
    App.render { user := none, cartCount := cartCount, loading := false, token := token,
                 authorization := authorization } .checkout = .navigate "/auth" ∧
    App.render { user := none, cartCount := cartCount, loading := false, token := token,
                 authorization := authorization } .profile = .navigate "/auth" ∧
    App.render { user := none, cartCount := cartCount, loading := false, token := token,
                 authorization := authorization } .wishlist = .navigate "/auth" ∧
    App.render { user := none, cartCount := cartCount, loading := false, token := token,
                 authorization := authorization } .auth = .authPage ∧
    (App.render { user := none, cartCount := cartCount, loading := false, token := token,
                  authorization := authorization } route).isGatedPage = false := by
  refine ⟨?_, ?_, ?_, ?_, ?_, ?_, ?_, ?_, ?_, ?_, ?_⟩
  case refine_11 => cases route <;> simp [App.render, App.routeElement, Element.isGatedPage]
  all_goals simp [App.render, App.routeElement]

/-- C17: with an identity present and a mutation request that succeeds, the
quick-add of `ProductCard` and the add-to-cart of `ProductDetailPage` perform
the `POST /api/cart`, the success toast and then the call of
`fetchCartCount`; `updateQuantity` (for a quantity of at least 1) and
`removeItem` of `CartPage` perform the `PUT` / `DELETE`, the re-fetch of the
cart and then the call of `fetchCartCount`, whatever the answer to the
re-fetch, in particular when it is rejected. -/
theorem cart_mutation_success_refreshes (u : User) (product : Product)
    (cardState : ProductCard.State) (detailState : ProductDetailPage.State)
    (cartState : CartPage.State) (productId : String) (newQuantity : Int)
    (hq : 1 ≤ newQuantity) (cart : HttpResult CartData) (detail : Option String) :
    ((ProductCard.handleAddToCart (some u) product cardState (.ok ())).effects
      = [.request .POST "/api/cart" (.cartAdd product.id 1), .toastSuccess "Added to cart!",
         .fetchCartCount]) ∧
    ((ProductDetailPage.handleAddToCart (some u) { detailState with product := some product }
        (.ok ())).effects
      = [.request .POST "/api/cart" (.cartAdd product.id detailState.quantity),
         .toastSuccess "Added to cart!", .fetchCartCount]) ∧
    ((CartPage.updateQuantity cartState productId newQuantity (.ok ()) cart).effects
      = [.request .PUT ("/api/cart/" ++ productId ++ "?quantity=" ++ toString newQuantity) .empty]
          ++ (CartPage.fetchCart cartState cart).effects ++ [.fetchCartCount]) ∧
    ((CartPage.updateQuantity cartState productId newQuantity (.ok ()) (.error detail)).effects
      = [.request .PUT ("/api/cart/" ++ productId ++ "?quantity=" ++ toString newQuantity) .empty,
         .request .GET "/api/cart" .empty, .consoleError "Failed to fetch cart:",
         .toastError "Failed to load cart", .fetchCartCount]) ∧
    ((CartPage.removeItem cartState productId (.ok ()) cart).effects
      = [.request .DELETE ("/api/cart/" ++ productId) .empty]
          ++ (CartPage.fetchCart cartState cart).effects
          ++ [.fetchCartCount, .toastSuccess "Item removed from cart"]) ∧
    ((CartPage.removeItem cartState productId (.ok ()) (.error detail)).effects
      = [.request .DELETE ("/api/cart/" ++ productId) .empty,
         .request .GET "/api/cart" .empty, .consoleError "Failed to fetch cart:",
         .toastError "Failed to load cart", .fetchCartCount,
         .toastSuccess "Item removed from cart"]) ∧
    refreshFollows .POST
      (ProductCard.handleAddToCart (some u) product cardState (.ok ())).effects = true ∧
    refreshFollows .POST
      (ProductDetailPage.handleAddToCart (some u) { detailState with product := some product }
        (.ok ())).effects = true ∧
    refreshFollows .PUT
      (CartPage.updateQuantity cartState productId newQuantity (.ok ()) cart).effects = true ∧
    refreshFollows .DELETE
      (CartPage.removeItem cartState productId (.ok ()) cart).effects = true := by
  have hlt : ¬ newQuantity < 1 := by omega
  refine ⟨?_, ?_, ?_, ?_, ?_, ?_, ?_, ?_, ?_, ?_⟩
  · simp [ProductCard.handleAddToCart, ProductCard.handleAddToCartSync, API]
  · simp [ProductDetailPage.handleAddToCart, ProductDetailPage.handleAddToCartSync, API]
  · simp [CartPage.updateQuantity, hlt, API]
  · simp [CartPage.updateQuantity, hlt, CartPage.fetchCart, API]
  · simp [CartPage.removeItem, API]
  · simp [CartPage.removeItem, CartPage.fetchCart, API]
  · simp [ProductCard.handleAddToCart, ProductCard.handleAddToCartSync, refreshFollows,
      Effect.isRequest, Effect.isRefresh]
  · simp [ProductDetailPage.handleAddToCart, ProductDetailPage.handleAddToCartSync,
      refreshFollows, Effect.isRequest, Effect.isRefresh]
  · simp [CartPage.updateQuantity, hlt, refreshFollows, Effect.isRequest, Effect.isRefresh]
  · simp [CartPage.removeItem, refreshFollows, Effect.isRequest, Effect.isRefresh]

/-- Witness of C17: raising a line to quantity 3 while the re-fetch fails. -/
theorem cart_mutation_success_refreshes_witness :
    (CartPage.updateQuantity { cart := none, loading := false } "p1" 3 (.ok ())
        (.error none)).effects
      = [.request .PUT ("/api/cart/" ++ "p1" ++ "?quantity=" ++ toString (3 : Int)) .empty,
         .request .GET "/api/cart" .empty, .consoleError "Failed to fetch cart:",
         .toastError "Failed to load cart", .fetchCartCount] :=
  (cart_mutation_success_refreshes { id := "u1", name := "Ada", email := "ada@example.org" }
    { id := "p1", name := "Blocks", price := 10, stock := 4 } { isAddingToCart := false }
    { product := none, quantity := 1, loading := false, isAddingToCart := false }
    { cart := none, loading := false } "p1" 3 (by decide) (.error none) none).2.2.2.1

/-- C18: with an identity present and a mutation request that is rejected,
each cart mutation handler performs only the request, a failure toast and a
console log: no re-fetch of the cart and no call of `fetchCartCount`, so the
state of `App` (with it `cartCount`) is left as it was and `App` sends
nothing; `updateQuantity` (for a quantity of at least 1) and `removeItem`
leave the state of the cart page, with its cart snapshot, unchanged. -/
theorem cart_mutation_failure_keeps_state (u : User) (product : Product)
    (cardState : ProductCard.State) (detailState : ProductDetailPage.State)
    (cartState : CartPage.State) (productId : String) (newQuantity : Int)
    (hq : 1 ≤ newQuantity) (detail : Option String) (cart : HttpResult CartData)
    (appState : App.AppState) :
    ((ProductCard.handleAddToCart (some u) product cardState (.error detail)).effects
      = [.request .POST "/api/cart" (.cartAdd product.id 1),
         .toastError "Failed to add to cart", .consoleError "error"]) ∧
    ((ProductDetailPage.handleAddToCart (some u) { detailState with product := some product }
        (.error detail)).effects
      = [.request .POST "/api/cart" (.cartAdd product.id detailState.quantity),
         .toastError "Failed to add to cart", .consoleError "error"]) ∧
    ((CartPage.updateQuantity cartState productId newQuantity (.error detail) cart).effects
      = [.request .PUT ("/api/cart/" ++ productId ++ "?quantity=" ++ toString newQuantity) .empty,
         .consoleError "Failed to update quantity:", .toastError "Failed to update quantity"]) ∧
    ((CartPage.removeItem cartState productId (.error detail) cart).effects
      = [.request .DELETE ("/api/cart/" ++ productId) .empty,
         .consoleError "Failed to remove item:", .toastError "Failed to remove item"]) ∧
    (CartPage.updateQuantity cartState productId newQuantity (.error detail) cart).state
      = cartState ∧
    (CartPage.removeItem cartState productId (.error detail) cart).state = cartState ∧
    App.handleContextCalls appState cart
      (ProductCard.handleAddToCart (some u) product cardState (.error detail)).effects
      = (appState, []) ∧
    App.handleContextCalls appState cart
      (ProductDetailPage.handleAddToCart (some u) { detailState with product := some product }
        (.error detail)).effects = (appState, []) ∧
    App.handleContextCalls appState cart
      (CartPage.updateQuantity cartState productId newQuantity (.error detail) cart).effects
      = (appState, []) ∧
    App.handleContextCalls appState cart
      (CartPage.removeItem cartState productId (.error detail) cart).effects
      = (appState, []) := by
  have hlt : ¬ newQuantity < 1 := by omega
  refine ⟨?_, ?_, ?_, ?_, ?_, ?_, ?_, ?_, ?_, ?_⟩
  · simp [ProductCard.handleAddToCart, ProductCard.handleAddToCartSync, API]
  · simp [ProductDetailPage.handleAddToCart, ProductDetailPage.handleAddToCartSync, API]
  · simp [CartPage.updateQuantity, hlt, API]
  · simp [CartPage.removeItem, API]
  · simp [CartPage.updateQuantity, hlt]
  · simp [CartPage.removeItem]
  · simp [ProductCard.handleAddToCart, ProductCard.handleAddToCartSync,
      App.handleContextCalls]
  · simp [ProductDetailPage.handleAddToCart, ProductDetailPage.handleAddToCartSync,
      App.handleContextCalls]
  · simp [CartPage.updateQuantity, hlt, App.handleContextCalls]
  · simp [CartPage.removeItem, App.handleContextCalls]

/-- Witness of C18: a rejected change to quantity 2 on a loaded cart page. -/
theorem cart_mutation_failure_keeps_state_witness :
    (CartPage.updateQuantity { cart := some { items := some [⟨"p1", 1, none⟩] }, loading := false }
        "p1" 2 (.error none) (.error none)).state
      = { cart := some { items := some [⟨"p1", 1, none⟩] }, loading := false } :=
  (cart_mutation_failure_keeps_state { id := "u1", name := "Ada", email := "ada@example.org" }
    { id := "p1", name := "Blocks", price := 10, stock := 4 } { isAddingToCart := false }
    { product := none, quantity := 1, loading := false, isAddingToCart := false }
    { cart := some { items := some [⟨"p1", 1, none⟩] }, loading := false } "p1" 2 (by decide)
    none (.error none) (App.initialState none)).2.2.2.2.1

/-- C19, as stated, fails: when the login request is rejected with an empty
`detail`, the toast shows "Authentication failed", not the server's detail. -/
theorem AuthPage.failure_toast_empty_detail :
    (AuthPage.handleSubmit AuthPage.initialState (.error (some ""))).effects
      = [.request .POST "/api/auth/login" (.loginCredentials "" ""),
         .consoleError "Auth error:", .toastError "Authentication failed"] ∧
    ¬ (∀ (st : AuthPage.State) (text : String),
        (AuthPage.handleSubmit st (.error (some text))).effects.getLast?
          = some (.toastError text)) := by
  refine ⟨by simp [AuthPage.handleSubmit, AuthPage.initialState, AuthPage.failureText, API], ?_⟩
  intro h
  have h0 := h AuthPage.initialState ""
  simp [AuthPage.handleSubmit, AuthPage.initialState, AuthPage.failureText] at h0

/-- C19, amended: when the login or register request is rejected, the effects
after the request are a console log and one failure toast, whose text is the
server's detail when that is present and non-empty and "Authentication
failed" when it is absent or empty; there is no call of `login` and no
navigation, so the state of `App` (token, header, Identity) is left as it was;
and the `loading` flag of the view ends false. -/
theorem AuthPage.handleSubmit_failure (st : AuthPage.State) (text : String) (htext : text ≠ "")
    (detail : Option String) (cart : HttpResult CartData) (appState : App.AppState) :
    (AuthPage.handleSubmit st (.error (some text))).effects.tail
      = [.consoleError "Auth error:", .toastError text] ∧
    (AuthPage.handleSubmit st (.error none)).effects.tail
      = [.consoleError "Auth error:", .toastError "Authentication failed"] ∧
    (AuthPage.handleSubmit st (.error (some ""))).effects.tail
      = [.consoleError "Auth error:", .toastError "Authentication failed"] ∧
    (AuthPage.handleSubmit st (.error detail)).effects.any Effect.isLogin = false ∧
    (AuthPage.handleSubmit st (.error detail)).effects.any Effect.isNavigate = false ∧
    (AuthPage.handleSubmit st (.error detail)).effects.countP Effect.isToast = 1 ∧
    App.handleContextCalls appState cart (AuthPage.handleSubmit st (.error detail)).effects
      = (appState, []) ∧
    (AuthPage.handleSubmit st (.error detail)).state.loading = false := by
  refine ⟨?_, ?_, ?_, ?_, ?_, ?_, ?_, ?_⟩ <;>
    by_cases hmode : st.isLogin = true <;>
    simp [AuthPage.handleSubmit, AuthPage.failureText, hmode, htext, Effect.isLogin,
      Effect.isNavigate, Effect.isToast, List.countP_cons, App.handleContextCalls]

/-- Witness of C19, amended, at the detail "Incorrect email or password". -/
theorem AuthPage.handleSubmit_failure_witness :
    (AuthPage.handleSubmit AuthPage.initialState
        (.error (some "Incorrect email or password"))).effects.tail
      = [.consoleError "Auth error:", .toastError "Incorrect email or password"] :=
  (AuthPage.handleSubmit_failure AuthPage.initialState "Incorrect email or password"
    (by decide) none (.error none) (App.initialState none)).1

/-- C20: the `[user]` effect calls `fetchCartCount` exactly when the identity
it runs with is non-null: once after every `login` (so after every transition
from null to non-null), once after a successful resolution, and not at all at
mount, after a failed or skipped resolution or after `logout`; run on the
state of `App`, the call with an identity sends one `GET /api/cart` and the
effect with Identity null sends nothing. -/
theorem App.userEffect_refreshes_iff_identity (st : App.AppState) (user : Option User)
    (u : User) (token : String) (persisted : Option String) (me : HttpResult User)
    (cart : HttpResult CartData) :
    (App.userEffect user).countP Effect.isRefresh = (if user.isSome then 1 else 0) ∧
    App.userEffect (some u) = [.fetchCartCount] ∧
    App.userEffect none = [] ∧
    App.effectAfterOp st (.login token u) = [.fetchCartCount] ∧
    App.effectAfterOp st .logout = [] ∧
    App.effectAfterStartup persisted me
      = (if (App.startup (App.initialState persisted) me).state.user.isSome
          then [.fetchCartCount] else []) ∧
    (App.handleContextCalls st cart (App.userEffect (some u))).2.countP
        (Effect.isRequestTo .GET "/api/cart") = 1 ∧
    App.handleContextCalls st cart (App.userEffect none) = (st, []) := by
  refine ⟨?_, rfl, rfl, rfl, ?_, ?_, ?_, rfl⟩
  · cases user <;> simp [App.userEffect, Effect.isRefresh]
  · cases hu : st.user <;> simp [App.effectAfterOp, hu, App.userEffect]
  · have h0 : (App.initialState persisted).user = none := rfl
    cases hu : (App.startup (App.initialState persisted) me).state.user <;>
      simp [App.effectAfterStartup, hu, h0, App.userEffect]
  · cases cart with
    | error detail =>
      simp [App.userEffect, App.handleContextCalls, App.fetchCartCount, Effect.isRequestTo,
        List.countP_cons, API]
    | ok data =>
      obtain ⟨items⟩ := data
      cases items <;>
        simp [App.userEffect, App.handleContextCalls, App.fetchCartCount, Effect.isRequestTo,
          List.countP_cons, API]

/-- The mount effect never writes `cartCount`. -/
theorem App.startup_cartCount (persisted : Option String) (me : HttpResult User) :
    (App.startup (App.initialState persisted) me).state.cartCount = 0 := by
  cases persisted with
  | none => simp [App.startup, App.startupSync, App.initialState]
  | some t =>
    by_cases ht : t = ""
    · simp [App.startup, App.startupSync, App.initialState, truthy, ht]
    · cases me <;>
        simp [App.startup, App.startupSync, App.initialState, truthy, ht, App.fetchUser]

/-- The integer 2 is a Number value. -/
theorem toDouble_two : toDouble 2 = .finite 2 := by
  have h := toDouble_safeInt 2 (by norm_num [abs_of_pos])
  norm_num at h
  exact h

/-- An answer arriving with a request in flight runs the rest of
`fetchCartCount` on the state of that moment. -/
theorem App.stepEvent_settled (r : Running) (response : HttpResult CartData)
    (hpending : r.pending ≠ 0) :
    (App.stepEvent r (.refreshSettled response)).app = (App.fetchCartCount r.app response).state := by
  simp [App.stepEvent, hpending]

/-- C21 at the failing run: after a page load without token, `login`, which
makes the `[user]` effect send one cart-count request, then `logout()`, then
the successful answer to that request with one line of quantity 2, Identity
is null and `cartCount` is 2, not 0: the answer is applied, not discarded. -/
theorem App.stale_refresh_not_discarded :
    (App.runEvents (App.afterStartup none (.error none))
        [.login "t" { id := "u1", name := "Ada", email := "ada@example.org" }]).pending = 1 ∧
    (App.runEvents (App.afterStartup none (.error none))
        [.login "t" { id := "u1", name := "Ada", email := "ada@example.org" },
         .logout]).app.cartCount = 0 ∧
    (App.runEvents (App.afterStartup none (.error none))
        [.login "t" { id := "u1", name := "Ada", email := "ada@example.org" }, .logout,
         .refreshSettled (.ok { items := some [⟨"p1", 2, none⟩] })]).app.user = none ∧
    (App.runEvents (App.afterStartup none (.error none))
        [.login "t" { id := "u1", name := "Ada", email := "ada@example.org" }, .logout,
         .refreshSettled (.ok { items := some [⟨"p1", 2, none⟩] })]).app.cartCount
      = .finite 2 ∧
    (App.runEvents (App.afterStartup none (.error none))
        [.login "t" { id := "u1", name := "Ada", email := "ada@example.org" }, .logout,
         .refreshSettled (.ok { items := some [⟨"p1", 2, none⟩] })]).app.cartCount ≠ 0 := by
  have hpending : (App.runEvents (App.afterStartup none (.error none))
      [.login "t" { id := "u1", name := "Ada", email := "ada@example.org" }, .logout]).pending
      = 1 := by
    simp [App.runEvents, App.afterStartup, App.stepEvent, App.startup, App.startupSync,
      App.initialState, App.effectAfterStartup, App.effectAfterOp, App.userEffect, App.login,
      Effect.isRefresh]
  have hcount : (App.runEvents (App.afterStartup none (.error none))
      [.login "t" { id := "u1", name := "Ada", email := "ada@example.org" }, .logout,
       .refreshSettled (.ok { items := some [⟨"p1", 2, none⟩] })]).app.cartCount
      = .finite 2 := by
    have hsplit : App.runEvents (App.afterStartup none (.error none))
        [.login "t" { id := "u1", name := "Ada", email := "ada@example.org" }, .logout,
         .refreshSettled (.ok { items := some [⟨"p1", 2, none⟩] })]
        = App.stepEvent (App.runEvents (App.afterStartup none (.error none))
            [.login "t" { id := "u1", name := "Ada", email := "ada@example.org" }, .logout])
          (.refreshSettled (.ok { items := some [⟨"p1", 2, none⟩] })) := rfl
    rw [hsplit, App.stepEvent_settled _ _ (by rw [hpending]; norm_num),
      App.fetchCartCount_count, List.foldl_cons, List.foldl_nil]
    show (JsNumber.finite 0).add (toDouble ((2 : Int) : ℚ)) = _
    rw [show ((2 : Int) : ℚ) = 2 by norm_cast, toDouble_two]
    show toDouble (0 + 2) = _
    rw [zero_add, toDouble_two]
  refine ⟨?_, ?_, ?_, hcount, ?_⟩
  · simp [App.runEvents, App.afterStartup, App.stepEvent, App.startup, App.startupSync,
      App.initialState, App.effectAfterStartup, App.effectAfterOp, App.userEffect, App.login,
      Effect.isRefresh]
  · simp [App.runEvents, App.stepEvent, App.logout]
  · simp [App.runEvents, App.afterStartup, App.stepEvent, App.startup, App.startupSync,
      App.initialState, App.effectAfterStartup, App.effectAfterOp, App.userEffect, App.login,
      App.logout, App.fetchCartCount, Effect.isRefresh]
  · rw [hcount, JsNumber.zero_eq]
    norm_num

/-- C22: the rest of `fetchProducts` stores every successful product-list
answer, whatever category is selected when it arrives; and from a listing with
nothing in flight, selecting a category `a` and then another category `b`
leaves two requests in flight, and when the answer for `b` arrives first and
the answer for `a` after it, the listing ends with the products answered for
`a` while the selected category is `b`. -/
theorem ProductsPage.late_response_overwrites (st : ProductsPage.State) (a b : String)
    (forA forB : List Product) (ha : a ≠ st.selectedCategory) (hb : b ≠ a) :
    (∀ (view : ProductsPage.State) (data : List Product),
      (ProductsPage.fetchProductsSettled view (.ok data)).1.products = data ∧
      (ProductsPage.fetchProductsSettled view (.ok data)).1.selectedCategory
        = view.selectedCategory) ∧
    (ProductsPage.run { view := st, inFlight := [] }
        [.categoryClicked a, .categoryClicked b]).inFlight
      = [ProductsPage.productsUrl a, ProductsPage.productsUrl b] ∧
    (ProductsPage.run { view := st, inFlight := [] }
        [.categoryClicked a, .categoryClicked b, .settled 1 (.ok forB),
         .settled 0 (.ok forA)]).view.products = forA ∧
    (ProductsPage.run { view := st, inFlight := [] }
        [.categoryClicked a, .categoryClicked b, .settled 1 (.ok forB),
         .settled 0 (.ok forA)]).view.selectedCategory = b ∧
    (ProductsPage.run { view := st, inFlight := [] }
        [.categoryClicked a, .categoryClicked b, .settled 1 (.ok forB),
         .settled 0 (.ok forA)]).inFlight = [] := by
  have hsel : ∀ (view : ProductsPage.State) (c : String),
      (ProductsPage.handleCategoryChange view c).selectedCategory = c := by
    intro view c
    by_cases hc : c = "" <;> simp [ProductsPage.handleCategoryChange, hc]
  have hstep1 : ProductsPage.step { view := st, inFlight := [] } (.categoryClicked a)
      = { view := (ProductsPage.fetchProductsSync (ProductsPage.handleCategoryChange st a)).1
          inFlight := [ProductsPage.productsUrl a] } := by
    simp [ProductsPage.step, ha]
  have hstep2 : ProductsPage.step
      { view := (ProductsPage.fetchProductsSync (ProductsPage.handleCategoryChange st a)).1
        inFlight := [ProductsPage.productsUrl a] } (.categoryClicked b)
      = { view := (ProductsPage.fetchProductsSync (ProductsPage.handleCategoryChange
            (ProductsPage.fetchProductsSync (ProductsPage.handleCategoryChange st a)).1 b)).1
          inFlight := [ProductsPage.productsUrl a, ProductsPage.productsUrl b] } := by
    simp [ProductsPage.step, ProductsPage.fetchProductsSync, hsel, hb]
  refine ⟨?_, ?_, ?_, ?_, ?_⟩
  · intro view data
    simp [ProductsPage.fetchProductsSettled]
  · simp only [ProductsPage.run, List.foldl_cons, List.foldl_nil, hstep1, hstep2]
  · simp only [ProductsPage.run, List.foldl_cons, List.foldl_nil, hstep1, hstep2]
    simp [ProductsPage.step, ProductsPage.fetchProductsSettled]
  · simp only [ProductsPage.run, List.foldl_cons, List.foldl_nil, hstep1, hstep2]
    simp [ProductsPage.step, ProductsPage.fetchProductsSettled, ProductsPage.fetchProductsSync,
      hsel]
  · simp only [ProductsPage.run, List.foldl_cons, List.foldl_nil, hstep1, hstep2]
    simp [ProductsPage.step]

/-- Witness of C22: "Puzzles" then "Dolls" selected from the unfiltered
listing, the answer for "Dolls" arriving first. -/
theorem ProductsPage.late_response_overwrites_witness :
    (ProductsPage.run
        { view := { products := [], categories := [], loading := false, selectedCategory := "",
                    searchCategory := none }
          inFlight := [] }
        [.categoryClicked "Puzzles", .categoryClicked "Dolls",
         .settled 1 (.ok [{ id := "d1", name := "Doll", price := 12, stock := 3 }]),
         .settled 0 (.ok [{ id := "z1", name := "Jigsaw", price := 8, stock := 5 }])]).view.products
      = [{ id := "z1", name := "Jigsaw", price := 8, stock := 5 }] ∧
    (ProductsPage.run
        { view := { products := [], categories := [], loading := false, selectedCategory := "",
                    searchCategory := none }
          inFlight := [] }
        [.categoryClicked "Puzzles", .categoryClicked "Dolls",
         .settled 1 (.ok [{ id := "d1", name := "Doll", price := 12, stock := 3 }]),
         .settled 0 (.ok [{ id := "z1", name := "Jigsaw", price := 8, stock := 5 }])]
      ).view.selectedCategory = "Dolls" :=
  ⟨(ProductsPage.late_response_overwrites
      { products := [], categories := [], loading := false, selectedCategory := "",
        searchCategory := none } "Puzzles" "Dolls"
      [{ id := "z1", name := "Jigsaw", price := 8, stock := 5 }]
      [{ id := "d1", name := "Doll", price := 12, stock := 3 }] (by decide) (by decide)).2.2.1,
   (ProductsPage.late_response_overwrites
      { products := [], categories := [], loading := false, selectedCategory := "",
        searchCategory := none } "Puzzles" "Dolls"
      [{ id := "z1", name := "Jigsaw", price := 8, stock := 5 }]
      [{ id := "d1", name := "Doll", price := 12, stock := 3 }] (by decide) (by decide)).2.2.2.1⟩

/-- C23 at update-quantity: with the `PUT` and the re-fetch of the cart both
successful, `updateQuantity` performs the `PUT`, the `GET /api/cart` and the
call of `fetchCartCount()` and shows no toast at all, whereas `removeItem`
on the same answers ends with the toast "Item removed from cart". -/
theorem CartPage.updateQuantity_success_no_toast :
    (CartPage.updateQuantity { cart := some { items := some [⟨"p1", 1, none⟩] }, loading := false }
        "p1" 2 (.ok ()) (.ok { items := some [⟨"p1", 2, none⟩] })).effects
      = [.request .PUT ("/api/cart/p1?quantity=" ++ toString (2 : Int)) .empty,
         .request .GET "/api/cart" .empty, .fetchCartCount] ∧
    (CartPage.updateQuantity { cart := some { items := some [⟨"p1", 1, none⟩] }, loading := false }
        "p1" 2 (.ok ()) (.ok { items := some [⟨"p1", 2, none⟩] })).effects.any Effect.isToast
      = false ∧
    (CartPage.removeItem { cart := some { items := some [⟨"p1", 1, none⟩] }, loading := false }
        "p1" (.ok ()) (.ok { items := some [] })).effects.any Effect.isToastSuccess
      = true := by
  refine ⟨?_, ?_, ?_⟩
  · simp [CartPage.updateQuantity, CartPage.fetchCart, API]
  · simp [CartPage.updateQuantity, CartPage.fetchCart, Effect.isToast]
  · simp [CartPage.removeItem, CartPage.fetchCart, Effect.isToastSuccess]

/-- C24: at mount `loading` is true, and after the synchronous part of the
mount effect it is still true exactly when the identity fetch is pending; in
every state with `loading` true every route renders the
loading placeholder, so no page component exists; and for every persisted
token and every answer to the identity fetch the mount effect ends with
`loading` false. -/
theorem App.loading_gate (persisted : Option String) (me : HttpResult User) (t : String)
    (user : Option User) (cartCount : JsNumber) (token authorization : Option String)
    (route : Route) :
    (App.initialState persisted).loading = true ∧
    (App.startupSync (App.initialState persisted)).1.loading
      = (App.startupSync (App.initialState persisted)).2 ∧
    App.render { user := user, cartCount := cartCount, loading := true, token := token,
                 authorization := authorization } route = .loadingPlaceholder ∧
    (App.startup (App.initialState persisted) me).state.loading = false ∧
    (App.startup (App.initialState none) me).state.loading = false ∧
    (∀ data : User, (App.fetchUser (App.initialState (some t)) (.ok data)).state.loading
      = false) ∧
    (∀ detail : Option String,
      (App.fetchUser (App.initialState (some t)) (.error detail)).state.loading = false) := by
  refine ⟨rfl, ?_, ?_, ?_, ?_, ?_, ?_⟩
  · cases persisted with
    | none => simp [App.startupSync, App.initialState]
    | some tok => by_cases ht : tok = "" <;> simp [App.startupSync, App.initialState, truthy, ht]
  · simp [App.render]
  · cases persisted with
    | none => simp [App.startup, App.startupSync, App.initialState]
    | some tok =>
      by_cases ht : tok = ""
      · simp [App.startup, App.startupSync, App.initialState, truthy, ht]
      · cases me <;>
          simp [App.startup, App.startupSync, App.initialState, truthy, ht, App.fetchUser]
  · simp [App.startup, App.startupSync, App.initialState]
  · intro data
    simp [App.fetchUser]
  · intro detail
    simp [App.fetchUser]

/-- The count a refresh leaves depends on the state only through its count. -/
theorem App.fetchCartCount_cartCount_congr (st st' : App.AppState) (cart : HttpResult CartData)
    (h : st.cartCount = st'.cartCount) :
    (App.fetchCartCount st cart).state.cartCount = (App.fetchCartCount st' cart).state.cartCount := by
  cases cart with
  | error detail => simpa [App.fetchCartCount] using h
  | ok data =>
    obtain ⟨items⟩ := data
    cases items <;> simp [App.fetchCartCount, h]

/-- A second refresh with the same answer leaves the count of the first. -/
theorem App.fetchCartCount_cartCount_idem (st : App.AppState) (cart : HttpResult CartData) :
    (App.fetchCartCount (App.fetchCartCount st cart).state cart).state.cartCount
      = (App.fetchCartCount st cart).state.cartCount := by
  cases cart with
  | error detail => simp [App.fetchCartCount]
  | ok data =>
    obtain ⟨items⟩ := data
    cases items <;> simp [App.fetchCartCount]

/-- The context calls of a trace without a call of `setCartCount` change
`cartCount` only through a refresh. -/
theorem App.handleContextCalls_cartCount (cart : HttpResult CartData) (effects : List Effect)
    (st : App.AppState) (hnone : effects.any Effect.isSetCartCount = false) :
    (App.handleContextCalls st cart effects).1.cartCount
      = if effects.any Effect.isRefresh then (App.fetchCartCount st cart).state.cartCount
        else st.cartCount := by
  induction effects generalizing st with
  | nil => simp [App.handleContextCalls]
  | cons e rest ih =>
    have hrest : rest.any Effect.isSetCartCount = false := by
      rw [List.any_cons, Bool.or_eq_false_iff] at hnone
      exact hnone.2
    cases e with
    | fetchCartCount =>
      simp only [App.handleContextCalls, ih _ hrest, List.any_cons, Effect.isRefresh,
        Bool.true_or, if_true, App.fetchCartCount_cartCount_idem]
      split <;> rfl
    | login token userData =>
      have hcount : (App.login st token userData).cartCount = st.cartCount := by
        simp [App.login]
      simp only [App.handleContextCalls, ih _ hrest, List.any_cons, Effect.isRefresh,
        Bool.false_or, hcount, App.fetchCartCount_cartCount_congr _ st cart hcount]
    | setCartCount value =>
      simp [List.any_cons, Effect.isSetCartCount] at hnone
    | request method url body =>
      simp only [App.handleContextCalls, ih _ hrest, List.any_cons, Effect.isRefresh,
        Bool.false_or]
    | navigate path =>
      simp only [App.handleContextCalls, ih _ hrest, List.any_cons, Effect.isRefresh,
        Bool.false_or]
    | toastSuccess message =>
      simp only [App.handleContextCalls, ih _ hrest, List.any_cons, Effect.isRefresh,
        Bool.false_or]
    | toastError message =>
      simp only [App.handleContextCalls, ih _ hrest, List.any_cons, Effect.isRefresh,
        Bool.false_or]
    | consoleError message =>
      simp only [App.handleContextCalls, ih _ hrest, List.any_cons, Effect.isRefresh,
        Bool.false_or]

/-- The add-to-cart handler of the card never calls `setCartCount`. -/
theorem ProductCard.card_addToCart_no_setCartCount (user : Option User) (product : Product)
    (st : ProductCard.State) (response : HttpResult Unit) :
    (ProductCard.handleAddToCart user product st response).effects.any Effect.isSetCartCount
      = false := by
  cases user <;> cases response <;>
    simp [ProductCard.handleAddToCart, ProductCard.handleAddToCartSync, Effect.isSetCartCount]

/-- The add-to-cart handler of the detail page never calls `setCartCount`. -/
theorem ProductDetailPage.detail_addToCart_no_setCartCount (user : Option User)
    (st : ProductDetailPage.State) (response : HttpResult Unit) :
    (ProductDetailPage.handleAddToCart user st response).effects.any Effect.isSetCartCount
      = false := by
  cases user <;> cases response <;> cases hp : st.product <;>
    simp [ProductDetailPage.handleAddToCart, ProductDetailPage.handleAddToCartSync,
      Effect.isSetCartCount, hp]

/-- `updateQuantity` never calls `setCartCount`. -/
theorem CartPage.updateQuantity_no_setCartCount (st : CartPage.State) (productId : String)
    (newQuantity : Int) (put : HttpResult Unit) (cart : HttpResult CartData) :
    (CartPage.updateQuantity st productId newQuantity put cart).effects.any
      Effect.isSetCartCount = false := by
  by_cases hq : newQuantity < 1
  · simp [CartPage.updateQuantity, hq]
  · cases put <;> cases cart <;>
      simp [CartPage.updateQuantity, hq, CartPage.fetchCart, Effect.isSetCartCount]

/-- `removeItem` never calls `setCartCount`. -/
theorem CartPage.removeItem_no_setCartCount (st : CartPage.State) (productId : String)
    (del : HttpResult Unit) (cart : HttpResult CartData) :
    (CartPage.removeItem st productId del cart).effects.any Effect.isSetCartCount = false := by
  cases del <;> cases cart <;>
    simp [CartPage.removeItem, CartPage.fetchCart, Effect.isSetCartCount]

/-- The checkout submit never calls `setCartCount`. -/
theorem CheckoutPage.handleSubmit_no_setCartCount (st : CheckoutPage.State)
    (response : HttpResult OrderData) :
    (CheckoutPage.handleSubmit st response).effects.any Effect.isSetCartCount = false := by
  unfold CheckoutPage.handleSubmit
  split
  · simp [Effect.isSetCartCount]
  · split
    · simp [CheckoutPage.submitFailed, Effect.isSetCartCount]
    · split
      · simp [CheckoutPage.submitFailed, Effect.isSetCartCount]
      · split
        · simp [CheckoutPage.submitFailed, Effect.isSetCartCount]
        · split <;> simp [CheckoutPage.submitFailed, Effect.isSetCartCount]

/-- C25 (counterexample): a successful `fetchCartCount` does not always
change `cartCount` to the fetched sum. For the fetched quantities
9007199254740992, 1 and 1 the two additions of 1 are both rounded away and
the count is 9007199254740992, although the sum 9007199254740994 is itself a
double. -/
theorem App.refresh_count_not_fetched_sum :
    (App.fetchCartCount (App.initialState none)
        (.ok { items := some [⟨"p1", 9007199254740992, none⟩, ⟨"p2", 1, none⟩,
          ⟨"p3", 1, none⟩] })).state.cartCount = .finite 9007199254740992 ∧
    (App.fetchCartCount (App.initialState none)
        (.ok { items := some [⟨"p1", 9007199254740992, none⟩, ⟨"p2", 1, none⟩,
          ⟨"p3", 1, none⟩] })).state.cartCount
      ≠ .finite ((((([⟨"p1", 9007199254740992, none⟩, ⟨"p2", 1, none⟩,
          ⟨"p3", 1, none⟩] : List CartItem).map (fun item => item.quantity)).sum : Int)) : ℚ) := by
  have hcount : (App.fetchCartCount (App.initialState none)
      (.ok { items := some [⟨"p1", 9007199254740992, none⟩, ⟨"p2", 1, none⟩,
        ⟨"p3", 1, none⟩] })).state.cartCount = .finite 9007199254740992 := by
    rw [App.fetchCartCount_count, List.foldl_cons, List.foldl_cons, List.foldl_cons,
      List.foldl_nil]
    have hbig : toDouble ((9007199254740992 : Int) : ℚ) = .finite 9007199254740992 := by
      rw [show (((9007199254740992 : Int) : ℚ)) = 9007199254740992 by norm_num]
      exact toDouble_two_pow_53
    have hone : toDouble ((1 : Int) : ℚ) = .finite 1 := by
      rw [Int.cast_one]
      exact toDouble_one
    have hstep : (JsNumber.finite 9007199254740992).add (.finite 1)
        = .finite 9007199254740992 := by
      show toDouble (9007199254740992 + 1) = _
      rw [show ((9007199254740992 : ℚ) + 1) = 9007199254740993 by norm_num]
      exact toDouble_above_safe
    have hfirst : (0 : JsNumber).add (.finite 9007199254740992)
        = .finite 9007199254740992 := by
      show toDouble (0 + 9007199254740992) = _
      rw [zero_add]
      exact toDouble_two_pow_53
    show (((0 : JsNumber).add (toDouble ((9007199254740992 : Int) : ℚ))).add
      (toDouble ((1 : Int) : ℚ))).add (toDouble ((1 : Int) : ℚ)) = _
    rw [hbig, hone, hfirst, hstep, hstep]
  refine ⟨hcount, ?_⟩
  rw [hcount]
  intro h
  injection h with h
  norm_num [List.map_cons, List.sum_cons] at h

/-- C25 (amended): of the transitions of `App`, `login()`, the mount effect
and `fetchUser` under any answer, and a failed `fetchCartCount` leave
`cartCount` as it was; a successful `fetchCartCount` sets it to the
floating-point sum of the fetched quantities, taken from 0 in list order,
which is the exact sum when the magnitudes of the quantities add up to less
than `2 ^ 53`; `logout()` sets it to 0. The handlers add-to-cart (card and
detail page), `updateQuantity`, `removeItem` and the checkout submit never
call the `setCartCount` handed down by `CartContext`, under any identity and
any answers; so their traces, carried out on the state of `App`, change
`cartCount` only if they contain a call of `fetchCartCount`, and then to what
that refresh leaves. -/
theorem App.cartCount_written_only_by_refresh_and_logout (st : App.AppState) (token : String)
    (u : User) (user : Option User) (me : HttpResult User) (items : List CartItem)
    (detail : Option String) (cart : HttpResult CartData) (product : Product)
    (cardState : ProductCard.State) (detailState : ProductDetailPage.State)
    (cartState : CartPage.State) (checkoutState : CheckoutPage.State) (productId : String)
    (newQuantity : Int) (mutation : HttpResult Unit) (order : HttpResult OrderData) :
    (App.login st token u).cartCount = st.cartCount ∧
    (App.startupSync st).1.cartCount = st.cartCount ∧
    (App.fetchUser st me).state.cartCount = st.cartCount ∧
    (App.startup st me).state.cartCount = st.cartCount ∧
    (App.fetchCartCount st (.error detail)).state.cartCount = st.cartCount ∧
    (App.fetchCartCount st (.ok { items := none })).state.cartCount = st.cartCount ∧
    (App.fetchCartCount st (.ok { items := some items })).state.cartCount
      = items.foldl (fun (sum : JsNumber) (item : CartItem) =>
          sum.add (toDouble item.quantity)) 0 ∧
    ((items.map (fun item => |item.quantity|)).sum < 2 ^ 53 →
      (App.fetchCartCount st (.ok { items := some items })).state.cartCount
        = .finite (((items.map (fun item => item.quantity)).sum : Int) : ℚ)) ∧
    (App.logout st).cartCount = 0 ∧
    (ProductCard.handleAddToCart user product cardState mutation).effects.any
      Effect.isSetCartCount = false ∧
    (ProductDetailPage.handleAddToCart user detailState mutation).effects.any
      Effect.isSetCartCount = false ∧
    (CartPage.updateQuantity cartState productId newQuantity mutation cart).effects.any
      Effect.isSetCartCount = false ∧
    (CartPage.removeItem cartState productId mutation cart).effects.any
      Effect.isSetCartCount = false ∧
    (CheckoutPage.handleSubmit checkoutState order).effects.any Effect.isSetCartCount = false ∧
    (App.handleContextCalls st cart
        (ProductCard.handleAddToCart user product cardState mutation).effects).1.cartCount
      = (if (ProductCard.handleAddToCart user product cardState mutation).effects.any
            Effect.isRefresh
         then (App.fetchCartCount st cart).state.cartCount else st.cartCount) ∧
    (App.handleContextCalls st cart
        (ProductDetailPage.handleAddToCart user detailState mutation).effects).1.cartCount
      = (if (ProductDetailPage.handleAddToCart user detailState mutation).effects.any
            Effect.isRefresh
         then (App.fetchCartCount st cart).state.cartCount else st.cartCount) ∧
    (App.handleContextCalls st cart
        (CartPage.updateQuantity cartState productId newQuantity mutation cart).effects).1.cartCount
      = (if (CartPage.updateQuantity cartState productId newQuantity mutation cart).effects.any
            Effect.isRefresh
         then (App.fetchCartCount st cart).state.cartCount else st.cartCount) ∧
    (App.handleContextCalls st cart
        (CartPage.removeItem cartState productId mutation cart).effects).1.cartCount
      = (if (CartPage.removeItem cartState productId mutation cart).effects.any Effect.isRefresh
         then (App.fetchCartCount st cart).state.cartCount else st.cartCount) ∧
    (App.handleContextCalls st cart
        (CheckoutPage.handleSubmit checkoutState order).effects).1.cartCount
      = (if (CheckoutPage.handleSubmit checkoutState order).effects.any Effect.isRefresh
         then (App.fetchCartCount st cart).state.cartCount else st.cartCount) := by
  have hcard := ProductCard.card_addToCart_no_setCartCount user product cardState mutation
  have hdetail := ProductDetailPage.detail_addToCart_no_setCartCount user detailState mutation
  have hupdate :=
    CartPage.updateQuantity_no_setCartCount cartState productId newQuantity mutation cart
  have hremove := CartPage.removeItem_no_setCartCount cartState productId mutation cart
  have hsubmit := CheckoutPage.handleSubmit_no_setCartCount checkoutState order
  have hsync : (App.startupSync st).1.cartCount = st.cartCount := by
    cases ht : st.token with
    | none => simp [App.startupSync, ht]
    | some t => by_cases hempty : t = "" <;> simp [App.startupSync, ht, truthy, hempty]
  have hfetch : (App.fetchUser st me).state.cartCount = st.cartCount := by
    cases me <;> simp [App.fetchUser]
  have hzero : JsNumber.finite 0 = JsNumber.finite ((0 : Int) : ℚ) := by
    rw [Int.cast_zero]
  refine ⟨?_, hsync, hfetch, ?_, ?_, ?_, App.fetchCartCount_count st items, ?_, ?_, hcard,
    hdetail, hupdate, hremove, hsubmit,
    App.handleContextCalls_cartCount cart _ st hcard,
    App.handleContextCalls_cartCount cart _ st hdetail,
    App.handleContextCalls_cartCount cart _ st hupdate,
    App.handleContextCalls_cartCount cart _ st hremove,
    App.handleContextCalls_cartCount cart _ st hsubmit⟩
  · simp [App.login]
  · cases ht : st.token with
    | none => simp [App.startup, App.startupSync, ht]
    | some t =>
      by_cases hempty : t = ""
      · simp [App.startup, App.startupSync, ht, truthy, hempty]
      · cases me <;> simp [App.startup, App.startupSync, ht, truthy, hempty, App.fetchUser]
  · simp [App.fetchCartCount]
  · simp [App.fetchCartCount]
  · intro hsafe
    have h := foldl_quantity_safe items 0 (by rw [abs_zero, zero_add]; exact hsafe)
    rw [App.fetchCartCount_count, hzero, h, zero_add]
  · simp [App.logout]

/-- Witness of C25 (amended): a refresh answered with the quantities 2 and 1
on the initial state. -/
theorem App.cartCount_written_only_by_refresh_and_logout_witness :
    ((([⟨"p1", 2, none⟩, ⟨"p2", 1, none⟩] : List CartItem).map
        (fun item => |item.quantity|)).sum < 2 ^ 53) ∧
    (App.fetchCartCount (App.initialState none)
        (.ok { items := some [⟨"p1", 2, none⟩, ⟨"p2", 1, none⟩] })).state.cartCount
      = .finite ((((([⟨"p1", 2, none⟩, ⟨"p2", 1, none⟩] : List CartItem).map
          (fun item => item.quantity)).sum : Int)) : ℚ) :=
  ⟨by norm_num [List.map_cons, List.sum_cons],
   (App.cartCount_written_only_by_refresh_and_logout (App.initialState none) "t"
      { id := "u1", name := "Ada", email := "ada@example.org" }
      (some { id := "u1", name := "Ada", email := "ada@example.org" }) (.error none)
      [⟨"p1", 2, none⟩, ⟨"p2", 1, none⟩] none (.error none)
      { id := "p1", name := "Blocks", price := 10, stock := 4 } { isAddingToCart := false }
      ProductDetailPage.initialState { cart := none, loading := false }
      CheckoutPage.initialState "p1" 2 (.ok ()) (.error none)).2.2.2.2.2.2.2.1
      (by norm_num [List.map_cons, List.sum_cons])⟩

/-- The order items of a cart whose lines all carry their product are the
lines mapped one by one. -/
theorem CheckoutPage.orderItems_of_lines (lines : List (String × Int × Product)) :
    CheckoutPage.orderItems
        (lines.map (fun line =>
          ({ product_id := line.1, quantity := line.2.1, product := some line.2.2 } : CartItem)))
      = some (lines.map (fun line =>
          ({ product_id := line.1, name := line.2.2.name, price := line.2.2.price,
             quantity := line.2.1 } : OrderItem))) := by
  induction lines with
  | nil => rfl
  | cons line rest ih => simp [CheckoutPage.orderItems, ih]

/-- C26: in a checkout state whose cart is a list of lines (in particular a
non-empty one), each carrying its product, and whose six shipping fields are non-empty, the first
effect of a submit, under any answer, is the `POST /api/orders` whose `items`
are the lines mapped one by one to product id, product name, product price
and quantity, so with the length and the order of the cart, and whose
`shipping_address` is the form data. -/
theorem CheckoutPage.order_request_mirrors_cart (st : CheckoutPage.State)
    (lines : List (String × Int × Product)) (response : HttpResult OrderData) (i : Nat)
    (hcart : st.cart = some { items := some (lines.map (fun line =>
      ({ product_id := line.1, quantity := line.2.1, product := some line.2.2 } : CartItem))) })
    (hname : st.formData.name ≠ "") (haddress : st.formData.address ≠ "")
    (hcity : st.formData.city ≠ "") (hstate : st.formData.state ≠ "")
    (hzip : st.formData.zipCode ≠ "") (hphone : st.formData.phone ≠ "") :
    (CheckoutPage.handleSubmit st response).effects.head?
      = some (.request .POST "/api/orders"
          (.order (lines.map (fun line =>
            ({ product_id := line.1, name := line.2.2.name, price := line.2.2.price,
               quantity := line.2.1 } : OrderItem))) st.formData)) ∧
    (lines.map (fun line =>
        ({ product_id := line.1, name := line.2.2.name, price := line.2.2.price,
           quantity := line.2.1 } : OrderItem))).length
      = (lines.map (fun line =>
        ({ product_id := line.1, quantity := line.2.1, product := some line.2.2 }
          : CartItem))).length ∧
    (lines.map (fun line =>
        ({ product_id := line.1, name := line.2.2.name, price := line.2.2.price,
           quantity := line.2.1 } : OrderItem)))[i]?
      = (lines[i]?).map (fun line =>
        ({ product_id := line.1, name := line.2.2.name, price := line.2.2.price,
           quantity := line.2.1 } : OrderItem)) ∧
    (lines.map (fun line =>
        ({ product_id := line.1, quantity := line.2.1, product := some line.2.2 }
          : CartItem)))[i]?
      = (lines[i]?).map (fun line =>
        ({ product_id := line.1, quantity := line.2.1, product := some line.2.2 }
          : CartItem)) := by
  refine ⟨?_, by simp, by simp, by simp⟩
  cases response <;>
    simp [CheckoutPage.handleSubmit, CheckoutPage.someFieldEmpty, hname, haddress, hcity, hstate,
      hzip, hphone, hcart, CheckoutPage.orderItems_of_lines, CheckoutPage.submitFailed, API]

/-- Witness of C26 at the example state and its second line. -/
theorem CheckoutPage.order_request_mirrors_cart_witness :
    (CheckoutPage.handleSubmit CheckoutPage.exampleState (.ok { id := "o1" })).effects.head?
      = some (.request .POST "/api/orders"
          (.order
            ([("p1", 2, { id := "p1", name := "Blocks", price := 10, stock := 4 }),
              ("p2", 1, { id := "p2", name := "Kite", price := 11 / 2, stock := 9 })].map
              (fun (line : String × Int × Product) =>
                ({ product_id := line.1, name := line.2.2.name, price := line.2.2.price,
                   quantity := line.2.1 } : OrderItem)))
            CheckoutPage.exampleState.formData)) :=
  (CheckoutPage.order_request_mirrors_cart CheckoutPage.exampleState
    [("p1", 2, { id := "p1", name := "Blocks", price := 10, stock := 4 }),
     ("p2", 1, { id := "p2", name := "Kite", price := 11 / 2, stock := 9 })]
    (.ok { id := "o1" }) 1 rfl (by decide) (by decide) (by decide) (by decide)
    (by decide) (by decide)).1

/-- C27: when one of the six shipping fields is the empty string, a submit
performs the single effect of the toast "Please fill in all fields" (so no
`POST /api/orders`), leaves the state as it was, so `isProcessing` stays
false when it was false, and ends fulfilled; and for every state and answer a
submit never both sends a request and has an empty field. -/
theorem CheckoutPage.handleSubmit_validation (st : CheckoutPage.State)
    (response : HttpResult OrderData) (other : CheckoutPage.State)
    (hempty : st.formData.name = "" ∨ st.formData.address = "" ∨ st.formData.city = "" ∨
      st.formData.state = "" ∨ st.formData.zipCode = "" ∨ st.formData.phone = "") :
    (CheckoutPage.handleSubmit st response).effects = [.toastError "Please fill in all fields"] ∧
    (CheckoutPage.handleSubmit st response).state = st ∧
    (CheckoutPage.handleSubmit { st with isProcessing := false } response).state.isProcessing
      = false ∧
    (CheckoutPage.handleSubmit st response).completion = .fulfilled ∧
    (((CheckoutPage.handleSubmit other response).effects.any Effect.isAnyRequest) &&
      (other.formData.name == "" || other.formData.address == "" || other.formData.city == "" ||
        other.formData.state == "" || other.formData.zipCode == "" ||
        other.formData.phone == "")) = false := by
  have hcheck : CheckoutPage.someFieldEmpty st.formData = true := by
    simp only [CheckoutPage.someFieldEmpty, Bool.or_eq_true, beq_iff_eq]
    tauto
  refine ⟨?_, ?_, ?_, ?_, ?_⟩
  · simp [CheckoutPage.handleSubmit, hcheck]
  · simp [CheckoutPage.handleSubmit, hcheck]
  · have hcheck' : CheckoutPage.someFieldEmpty
        ({ st with isProcessing := false } : CheckoutPage.State).formData = true := hcheck
    simp [CheckoutPage.handleSubmit, hcheck']
  · simp [CheckoutPage.handleSubmit, hcheck]
  · by_cases hother : CheckoutPage.someFieldEmpty other.formData = true
    · simp [CheckoutPage.handleSubmit, hother, Effect.isAnyRequest]
    · have hfalse : (other.formData.name == "" || other.formData.address == "" ||
          other.formData.city == "" || other.formData.state == "" ||
          other.formData.zipCode == "" || other.formData.phone == "") = false := by
        simpa [CheckoutPage.someFieldEmpty] using hother
      rw [hfalse, Bool.and_false]

/-- Witness of C27: the example state with the city left empty. -/
theorem CheckoutPage.handleSubmit_validation_witness :
    (CheckoutPage.handleSubmit
        { CheckoutPage.exampleState with
          formData := { CheckoutPage.exampleState.formData with city := "" } }
        (.ok { id := "o1" })).effects = [.toastError "Please fill in all fields"] :=
  (CheckoutPage.handleSubmit_validation
    { CheckoutPage.exampleState with
      formData := { CheckoutPage.exampleState.formData with city := "" } }
    (.ok { id := "o1" }) CheckoutPage.exampleState (Or.inr (Or.inr (Or.inl rfl)))).1

/-- Both session operations leave the header equal to the bearer form of the
persisted token. -/
theorem App.applyOp_header (st : App.AppState) (op : SessionOp) :
    (App.applyOp st op).authorization
      = (App.applyOp st op).token.map (fun token => "Bearer " ++ token) := by
  cases op <;> simp [App.applyOp, App.login, App.logout]

/-- The mount effect leaves the header equal to the bearer form of the
persisted token, unless the persisted token is the empty string. -/
theorem App.startup_header (persisted : Option String) (me : HttpResult User)
    (hpersisted : persisted ≠ some "") :
    (App.startup (App.initialState persisted) me).state.authorization
      = (App.startup (App.initialState persisted) me).state.token.map
          (fun token => "Bearer " ++ token) := by
  cases persisted with
  | none => simp [App.startup, App.startupSync, App.initialState]
  | some t =>
    have ht : t ≠ "" := fun h => hpersisted (by rw [h])
    cases me <;>
      simp [App.startup, App.startupSync, App.initialState, truthy, ht, App.fetchUser]

/-- C28: when the token found in `localStorage` at page load is absent or
non-empty, then after the resolution (whatever the answer to the identity
fetch) and after any sequence of `login` and `logout`, the Authorization
default header is the persisted token prefixed with `"Bearer "` when a token
is persisted and absent when none is; so the header is present exactly when a
token is persisted. -/
theorem App.header_matches_token (persisted : Option String) (me : HttpResult User)
    (ops : List SessionOp) (hpersisted : persisted ≠ some "") :
    (App.runSession persisted me ops).authorization
      = (App.runSession persisted me ops).token.map (fun token => "Bearer " ++ token) ∧
    (App.runSession persisted me ops).authorization.isSome
      = (App.runSession persisted me ops).token.isSome := by
  have hmain : (App.runSession persisted me ops).authorization
      = (App.runSession persisted me ops).token.map (fun token => "Bearer " ++ token) := by
    rcases List.eq_nil_or_concat ops with h | ⟨front, op, h⟩
    · subst h
      simpa [App.runSession, App.runOps] using App.startup_header persisted me hpersisted
    · subst h
      simp only [App.runSession, List.concat_eq_append, App.runOps_concat]
      exact App.applyOp_header _ op
  refine ⟨hmain, ?_⟩
  rw [hmain]
  cases (App.runSession persisted me ops).token <;> simp

/-- Witness of C28: a persisted token whose identity fetch fails, then a
login and a logout. -/
theorem App.header_matches_token_witness :
    (App.runSession (some "abc") (.error none)
        [.login "xyz" { id := "u1", name := "Ada", email := "ada@example.org" },
         .logout]).authorization
      = (App.runSession (some "abc") (.error none)
        [.login "xyz" { id := "u1", name := "Ada", email := "ada@example.org" },
         .logout]).token.map (fun token => "Bearer " ++ token) :=
  (App.header_matches_token (some "abc") (.error none)
    [.login "xyz" { id := "u1", name := "Ada", email := "ada@example.org" }, .logout]
    (by decide)).1

/-- C29: for every product id and every quantity below 1, `updateQuantity`
performs no effect, leaves the state as it was and ends fulfilled; for every
quantity, a trace of `updateQuantity` never both contains a `PUT` and has a
quantity below 1; and the decrease button of a line of quantity 1 performs no
effect and leaves the state, with its cart and that line, as it was. -/
theorem CartPage.updateQuantity_below_one (st : CartPage.State) (productId : String)
    (newQuantity anyQuantity : Int) (put : HttpResult Unit) (cart : HttpResult CartData)
    (product : Option Product) (hq : newQuantity < 1) :
    (CartPage.updateQuantity st productId newQuantity put cart).effects = [] ∧
    (CartPage.updateQuantity st productId newQuantity put cart).state = st ∧
    (CartPage.updateQuantity st productId newQuantity put cart).completion = .fulfilled ∧
    (((CartPage.updateQuantity st productId anyQuantity put cart).effects.any
        (Effect.isRequest .PUT)) && decide (anyQuantity < 1)) = false ∧
    (CartPage.decreaseClicked st { product_id := productId, quantity := 1, product := product }
        put cart).effects = [] ∧
    (CartPage.decreaseClicked st { product_id := productId, quantity := 1, product := product }
        put cart).state = st := by
  refine ⟨?_, ?_, ?_, ?_, ?_, ?_⟩
  · simp [CartPage.updateQuantity, hq]
  · simp [CartPage.updateQuantity, hq]
  · simp [CartPage.updateQuantity, hq]
  · by_cases hany : anyQuantity < 1
    · simp [CartPage.updateQuantity, hany]
    · simp [hany]
  · simp [CartPage.decreaseClicked, CartPage.updateQuantity]
  · simp [CartPage.decreaseClicked, CartPage.updateQuantity]

/-- Witness of C29: a change to quantity 0 on a loaded cart page. -/
theorem CartPage.updateQuantity_below_one_witness :
    (CartPage.updateQuantity { cart := some { items := some [⟨"p1", 1, none⟩] }, loading := false }
        "p1" 0 (.ok ()) (.ok { items := some [] })).effects = [] :=
  (CartPage.updateQuantity_below_one
    { cart := some { items := some [⟨"p1", 1, none⟩] }, loading := false } "p1" 0 5 (.ok ())
    (.ok { items := some [] }) none (by decide)).1

/-- A press keeps the product and keeps the quantity between 1 and its stock. -/
theorem ProductDetailPage.press_keeps_bounds (st : ProductDetailPage.State) (product : Product)
    (p : Press) (hstock : 1 ≤ product.stock) (hproduct : st.product = some product)
    (hlow : 1 ≤ st.quantity) (hhigh : st.quantity ≤ product.stock) :
    (ProductDetailPage.press st p).product = some product ∧
    1 ≤ (ProductDetailPage.press st p).quantity ∧
    (ProductDetailPage.press st p).quantity ≤ product.stock := by
  cases p with
  | decrease =>
    refine ⟨?_, ?_, ?_⟩
    · simpa [ProductDetailPage.press, ProductDetailPage.pressDecrease] using hproduct
    · show 1 ≤ max 1 (st.quantity - 1)
      exact le_max_left _ _
    · show max 1 (st.quantity - 1) ≤ product.stock
      exact max_le hstock (by omega)
  | increase =>
    have hpress : ProductDetailPage.press st .increase
        = { st with quantity := min product.stock (st.quantity + 1) } := by
      simp [ProductDetailPage.press, ProductDetailPage.pressIncrease, hproduct]
    rw [hpress]
    refine ⟨hproduct, ?_, ?_⟩
    · show 1 ≤ min product.stock (st.quantity + 1)
      exact le_min hstock (by omega)
    · show min product.stock (st.quantity + 1) ≤ product.stock
      exact min_le_left _ _

/-- Presses keep the product and keep the quantity between 1 and its stock. -/
theorem ProductDetailPage.pressAll_keeps_bounds (presses : List Press)
    (st : ProductDetailPage.State) (product : Product) (hstock : 1 ≤ product.stock)
    (hproduct : st.product = some product) (hlow : 1 ≤ st.quantity)
    (hhigh : st.quantity ≤ product.stock) :
    (ProductDetailPage.pressAll st presses).product = some product ∧
    1 ≤ (ProductDetailPage.pressAll st presses).quantity ∧
    (ProductDetailPage.pressAll st presses).quantity ≤ product.stock := by
  induction presses generalizing st with
  | nil => exact ⟨hproduct, hlow, hhigh⟩
  | cons p rest ih =>
    obtain ⟨h1, h2, h3⟩ :=
      ProductDetailPage.press_keeps_bounds st product p hstock hproduct hlow hhigh
    simpa [ProductDetailPage.pressAll] using ih (ProductDetailPage.press st p) h1 h2 h3

/-- C30: for every product of stock at least 1, on the detail page as loaded
from the mount state (quantity 1), after every sequence of presses of the
decrease and increase buttons the selected quantity is at least 1 and at most
the stock; and on every state showing the product, decrease sets the quantity
to max(1, q − 1) and increase to min(stock, q + 1). -/
theorem ProductDetailPage.quantity_within_stock (product : Product) (id : String)
    (presses : List Press) (st : ProductDetailPage.State) (hstock : 1 ≤ product.stock) :
    1 ≤ (ProductDetailPage.pressAll
          (ProductDetailPage.fetchProduct ProductDetailPage.initialState id (.ok product)).state
          presses).quantity ∧
    (ProductDetailPage.pressAll
        (ProductDetailPage.fetchProduct ProductDetailPage.initialState id (.ok product)).state
        presses).quantity ≤ product.stock ∧
    (ProductDetailPage.fetchProduct ProductDetailPage.initialState id (.ok product)).state.quantity
      = 1 ∧
    (ProductDetailPage.press { st with product := some product } .decrease).quantity
      = max 1 (st.quantity - 1) ∧
    (ProductDetailPage.press { st with product := some product } .increase).quantity
      = min product.stock (st.quantity + 1) := by
  have hbounds := ProductDetailPage.pressAll_keeps_bounds presses
    (ProductDetailPage.fetchProduct ProductDetailPage.initialState id (.ok product)).state
    product hstock (by simp [ProductDetailPage.fetchProduct])
    (by simp [ProductDetailPage.fetchProduct, ProductDetailPage.initialState])
    (by simpa [ProductDetailPage.fetchProduct, ProductDetailPage.initialState] using hstock)
  refine ⟨hbounds.2.1, hbounds.2.2, ?_, ?_, ?_⟩
  · simp [ProductDetailPage.fetchProduct, ProductDetailPage.initialState]
  · simp [ProductDetailPage.press, ProductDetailPage.pressDecrease]
  · simp [ProductDetailPage.press, ProductDetailPage.pressIncrease]

/-- Witness of C30: stock 2, the increase button pressed three times and the
decrease button once. -/
theorem ProductDetailPage.quantity_within_stock_witness :
    1 ≤ (ProductDetailPage.pressAll
          (ProductDetailPage.fetchProduct ProductDetailPage.initialState "p1"
            (.ok { id := "p1", name := "Blocks", price := 10, stock := 2 })).state
          [.increase, .increase, .increase, .decrease]).quantity ∧
    (ProductDetailPage.pressAll
        (ProductDetailPage.fetchProduct ProductDetailPage.initialState "p1"
          (.ok { id := "p1", name := "Blocks", price := 10, stock := 2 })).state
        [.increase, .increase, .increase, .decrease]).quantity ≤ 2 :=
  ⟨(ProductDetailPage.quantity_within_stock
      { id := "p1", name := "Blocks", price := 10, stock := 2 } "p1"
      [.increase, .increase, .increase, .decrease] ProductDetailPage.initialState
      (by decide)).1,
   (ProductDetailPage.quantity_within_stock
      { id := "p1", name := "Blocks", price := 10, stock := 2 } "p1"
      [.increase, .increase, .increase, .decrease] ProductDetailPage.initialState
      (by decide)).2.1⟩

end Storefront
